import Mathlib

/-! Phosh overview: synchronisation of toplevels and activities

A shallow embedding of `src/overview.c`.  The carousel of running activities is
an ordered list of activity records, GObject pointers are natural numbers,
`NULL` is `none`, and every handler is a pure function from the overview's
state (and the values it reads from its collaborators) to the new state.

GTK presentation calls that carry no state of the engine (style classes, widget
visibility, log messages, signal connections) have no counterpart here; the
handlers that the connected signals dispatch to are the functions below.
-/

namespace Phosh

/-! ## Data model -/

/-- A `GAppInfo`; `g_app_info_equal` on desktop app infos compares desktop ids. -/
structure GAppInfo where
  desktop_id : String
deriving DecidableEq, Repr

/-- A toplevel as the toplevel manager hands it to the overview: the pointer
(`handle`) and the values of the getters the overview reads. -/
structure PhoshToplevel where
  handle : Nat
  app_id : Option String
  title : Option String
  parent_handle : Option Nat
  maximized : Bool
  fullscreen : Bool
  activated : Bool
deriving DecidableEq, Repr

/-- A `PhoshActivity` widget: its pointer, its construct properties and the two
object data keys `"startup-id"` and `"toplevel"` the overview attaches to it. -/
structure PhoshActivity where
  ptr : Nat
  app_info : Option GAppInfo
  app_id : Option String
  parent_app_id : Option String
  win_width : Int
  win_height : Int
  maximized : Bool
  fullscreen : Bool
  startup_id : Option String
  toplevel : Option Nat
  has_thumbnail : Bool
deriving DecidableEq, Repr

/-- What the overview reads from the shell and its managers during a handler. -/
structure PhoshShell where
  /-- Width reported by `phosh_shell_get_usable_area`. -/
  usable_width : Int
  /-- Height reported by `phosh_shell_get_usable_area`. -/
  usable_height : Int
  /-- The app info `phosh_get_desktop_app_info_for_app_id` finds, if any. -/
  desktop_app_info_for_app_id : String → Option GAppInfo
  /-- The toplevel `phosh_toplevel_manager_get_parent` finds, if any. -/
  toplevel_manager_get_parent : PhoshToplevel → Option PhoshToplevel
  /-- The app info of an activity that was constructed without one. -/
  activity_default_app_info : Option String → Option GAppInfo

/-- The struct `PhoshOverviewPrivate`, together with what the carousel and GTK
remember of the calls made on them: the next free pointer, the widget last
scrolled to, the widget that last grabbed the focus, the number of
`has-activities` notifications and the thumbnails requested (activity,
toplevel). -/
structure PhoshOverview where
  carousel_running_activities : List PhoshActivity
  activity : Option Nat
  has_activities : Int
  next_ptr : Nat
  scroll_target : Option Nat
  focus : Option Nat
  notifications : Nat
  thumbnail_requests : List (Nat × Nat)
deriving DecidableEq, Repr

/-! ## Carousel and widget primitives -/

/-- The function `set_has_activities`: recompute the boolean from the page
count, and store and notify only when it differs from the stored value. -/
def set_has_activities (self : PhoshOverview) : PhoshOverview :=
  let has_activities : Int := if self.carousel_running_activities.length ≠ 0 then 1 else 0
  if self.has_activities = has_activities then self
  else { self with has_activities := has_activities, notifications := self.notifications + 1 }

/-- The function `on_n_pages_changed`. -/
def on_n_pages_changed (self : PhoshOverview) : PhoshOverview :=
  set_has_activities self

/-- Modelled from the spec: the template `overview.ui` that connects the
carousel's page count notification is not in the sources; per the spec the
boolean is recomputed on every insert and remove, so every change of the
carousel's children runs `on_n_pages_changed`. -/
def carousel_set_children (self : PhoshOverview) (children : List PhoshActivity) :
    PhoshOverview :=
  on_n_pages_changed { self with carousel_running_activities := children }

/-- The children after `hdy_carousel_insert` at `position` (a position beyond
the end appends). -/
def insert_at (children : List PhoshActivity) (activity : PhoshActivity) (position : Nat) :
    List PhoshActivity :=
  children.take position ++ activity :: children.drop position

/-- The function `hdy_carousel_insert`. -/
def hdy_carousel_insert (self : PhoshOverview) (activity : PhoshActivity) (position : Nat) :
    PhoshOverview :=
  carousel_set_children self (insert_at self.carousel_running_activities activity position)

/-- The function `gtk_container_add` on the carousel: append at the tail. -/
def gtk_container_add (self : PhoshOverview) (activity : PhoshActivity) : PhoshOverview :=
  carousel_set_children self (self.carousel_running_activities ++ [activity])

/-- The function `gtk_widget_destroy` of an activity: the widget leaves the carousel. -/
def gtk_widget_destroy (self : PhoshOverview) (ptr : Nat) : PhoshOverview :=
  carousel_set_children self (self.carousel_running_activities.filter (fun a => a.ptr ≠ ptr))

/-- A child as seen after `f` was applied to the object at `ptr`. -/
def update_at (ptr : Nat) (f : PhoshActivity → PhoshActivity) (a : PhoshActivity) :
    PhoshActivity :=
  if a.ptr = ptr then f a else a

/-- Apply `f` to the activity object at `ptr` (`g_object_set`, `g_object_set_data`). -/
def update_activity (self : PhoshOverview) (ptr : Nat) (f : PhoshActivity → PhoshActivity) :
    PhoshOverview :=
  { self with carousel_running_activities :=
      self.carousel_running_activities.map (update_at ptr f) }

/-- The call `g_object_set_data (activity, "startup-id", ...)`. -/
def set_startup_id (startup_id : Option String) (a : PhoshActivity) : PhoshActivity :=
  { a with startup_id := startup_id }

/-- The call `g_object_set_data (activity, "toplevel", toplevel)`. -/
def set_toplevel (handle : Nat) (a : PhoshActivity) : PhoshActivity :=
  { a with toplevel := some handle }

/-- The call `g_object_set` of `"win-width"`, `"win-height"`, `"maximized"` and
`"fullscreen"`. -/
def set_geometry (width height : Int) (maximized fullscreen : Bool) (a : PhoshActivity) :
    PhoshActivity :=
  { a with win_width := width, win_height := height, maximized := maximized,
           fullscreen := fullscreen }

/-- Modelled from the spec: `activity.c` is not in the sources.  An activity
constructed with an `"app-info"` reports it from `phosh_activity_get_app_info`;
what one constructed without reports is left to the environment. -/
def phosh_activity_new_app_info (shell : PhoshShell) (info : Option GAppInfo)
    (app_id : Option String) : Option GAppInfo :=
  match info with
  | some i => some i
  | none => shell.activity_default_app_info app_id

/-! ## `overview.c` -/

/-- The test `app_info && g_app_info_equal (needle, app_info)` of
`find_activity_by_app_info`. -/
def app_info_matches (needle : GAppInfo) (a : PhoshActivity) : Bool :=
  match a.app_info with
  | some app_info => decide (needle = app_info)
  | none => false

/-- The function `find_activity_by_app_info`: the first child whose app info is
set and equal to the needle. -/
def find_activity_by_app_info (self : PhoshOverview) (needle : GAppInfo) : Option PhoshActivity :=
  self.carousel_running_activities.find? (app_info_matches needle)

/-- The function `find_activity_by_app_id`. -/
def find_activity_by_app_id (shell : PhoshShell) (self : PhoshOverview) (needle : Option String) :
    Option PhoshActivity :=
  match needle with
  | none => none
  | some n =>
    match shell.desktop_app_info_for_app_id n with
    | none => none
    | some needle_info => find_activity_by_app_info self needle_info

/-- The loop of `get_last_app_id_pos`, walking from the last child backwards:
stop at a child whose app id compares equal, otherwise decrement `pos`. -/
def get_last_app_id_pos_loop (app_id : String) : List PhoshActivity → Nat → Nat
  | [], pos => pos
  | a :: prev, pos =>
    if a.app_id = some app_id then pos else get_last_app_id_pos_loop app_id prev (pos - 1)

/-- The function `get_last_app_id_pos`. -/
def get_last_app_id_pos (self : PhoshOverview) (app_id : Option String) : Nat :=
  match app_id with
  | none => 0
  | some id =>
    get_last_app_id_pos_loop id self.carousel_running_activities.reverse
      self.carousel_running_activities.length

/-- The object `g_object_new (PHOSH_TYPE_ACTIVITY, ...)` builds in
`create_new_activity`. -/
def phosh_activity_new (shell : PhoshShell) (self : PhoshOverview) (info : Option GAppInfo)
    (toplevel : Option PhoshToplevel) (app_id parent_app_id : Option String) : PhoshActivity :=
  { ptr := self.next_ptr
    app_info := phosh_activity_new_app_info shell info app_id
    app_id := app_id
    parent_app_id := parent_app_id
    win_width := shell.usable_width
    win_height := shell.usable_height
    maximized := match toplevel with
      | some t => t.maximized
      | none => false
    fullscreen := match toplevel with
      | some t => t.fullscreen
      | none => false
    startup_id := none
    toplevel := none
    has_thumbnail := false }

/-- The position `create_new_activity` computes: `pos` starts at `0` and is
looked up only for a parent app id that is not `NULL`. -/
def insert_pos (self : PhoshOverview) (parent_app_id : Option String) : Nat :=
  match parent_app_id with
  | some p => get_last_app_id_pos self (some p)
  | none => 0

/-- The function `create_new_activity`: returns the new state and the new
activity's pointer. -/
def create_new_activity (shell : PhoshShell) (self : PhoshOverview) (info : Option GAppInfo)
    (toplevel : Option PhoshToplevel) (app_id parent_app_id : Option String) :
    PhoshOverview × Nat :=
  let activity := phosh_activity_new shell self info toplevel app_id parent_app_id
  let pos := insert_pos self parent_app_id
  let self1 := { self with next_ptr := self.next_ptr + 1 }
  if pos ≠ 0 then (hdy_carousel_insert self1 activity pos, activity.ptr)
  else (gtk_container_add self1 activity, activity.ptr)

/-- The function `on_app_launch_started`. -/
def on_app_launch_started (shell : PhoshShell) (self : PhoshOverview) (info : GAppInfo)
    (startup_id : Option String) : PhoshOverview :=
  let r := create_new_activity shell self (some info) none none none
  update_activity r.1 r.2 (set_startup_id startup_id)

/-- The function `on_app_ready`. -/
def on_app_ready (self : PhoshOverview) (_info : GAppInfo) (_startup_id : Option String) :
    PhoshOverview :=
  self

/-- The function `get_toplevel_from_activity`; a `NULL` activity fails the type
check and yields `NULL`, and so does an activity without a toplevel, whether or
not the check on its thumbnail passes. -/
def get_toplevel_from_activity (activity : Option PhoshActivity) : Option Nat :=
  match activity with
  | none => none
  | some a =>
    match a.toplevel with
    | none => if a.has_thumbnail then none else none
    | some toplevel => some toplevel

/-- The function `on_app_failed`; destroying a `NULL` widget fails GTK's check
and does nothing. -/
def on_app_failed (self : PhoshOverview) (info : GAppInfo) (_startup_id : Option String) :
    PhoshOverview :=
  let activity := find_activity_by_app_info self info
  if (get_toplevel_from_activity activity).isSome then self
  else
    match activity with
    | none => self
    | some a => gtk_widget_destroy self a.ptr

/-- The test `toplevel == needle` of `find_activity_by_toplevel`. -/
def toplevel_matches (needle : Nat) (a : PhoshActivity) : Bool :=
  decide (get_toplevel_from_activity (some a) = some needle)

/-- The function `find_activity_by_toplevel`. -/
def find_activity_by_toplevel (self : PhoshOverview) (needle : Nat) : Option PhoshActivity :=
  self.carousel_running_activities.find? (toplevel_matches needle)

/-- The function `scroll_to_activity`. -/
def scroll_to_activity (self : PhoshOverview) (ptr : Nat) : PhoshOverview :=
  { self with scroll_target := some ptr, focus := some ptr }

/-- The function `on_toplevel_closed`. -/
def on_toplevel_closed (self : PhoshOverview) (toplevel : PhoshToplevel) : PhoshOverview :=
  match find_activity_by_toplevel self toplevel.handle with
  | none => self
  | some a =>
    let self1 := gtk_widget_destroy self a.ptr
    if self1.activity = some a.ptr then { self1 with activity := none } else self1

/-- The function `on_toplevel_activated_changed`. -/
def on_toplevel_activated_changed (self : PhoshOverview) (toplevel : PhoshToplevel) :
    PhoshOverview :=
  if toplevel.activated then
    match find_activity_by_toplevel self toplevel.handle with
    | none => { self with activity := none }
    | some a => scroll_to_activity { self with activity := some a.ptr } a.ptr
  else self

/-- The function `request_thumbnail`. -/
def request_thumbnail (self : PhoshOverview) (ptr : Nat) (toplevel : PhoshToplevel) :
    PhoshOverview :=
  { self with thumbnail_requests := self.thumbnail_requests ++ [(ptr, toplevel.handle)] }

/-- The activity `toplevel_to_activity` reuses: the one found for the app id,
unless that one already has a toplevel. -/
def reusable_activity (shell : PhoshShell) (self : PhoshOverview) (toplevel : PhoshToplevel) :
    Option PhoshActivity :=
  match find_activity_by_app_id shell self toplevel.app_id with
  | none => none
  | some a => if (get_toplevel_from_activity (some a)).isSome then none else some a

/-- The parent's app id as `toplevel_to_activity` resolves it. -/
def resolve_parent_app_id (shell : PhoshShell) (toplevel : PhoshToplevel) : Option String :=
  let parent := if toplevel.parent_handle.isSome then shell.toplevel_manager_get_parent toplevel
    else none
  match parent with
  | some p => p.app_id
  | none => none

/-- The function `toplevel_to_activity`. -/
def toplevel_to_activity (shell : PhoshShell) (self : PhoshOverview) (toplevel : PhoshToplevel) :
    PhoshOverview :=
  let parent_app_id := resolve_parent_app_id shell toplevel
  let r : PhoshOverview × Nat :=
    match reusable_activity shell self toplevel with
    | some a =>
      let self1 := update_activity self a.ptr
        (set_geometry shell.usable_width shell.usable_height toplevel.maximized
          toplevel.fullscreen)
      let self2 := update_activity self1 a.ptr (set_startup_id none)
      (request_thumbnail self2 a.ptr toplevel, a.ptr)
    | none => create_new_activity shell self none (some toplevel) toplevel.app_id parent_app_id
  let self3 := update_activity r.1 r.2 (set_toplevel toplevel.handle)
  if toplevel.activated then
    { scroll_to_activity self3 r.2 with activity := some r.2 }
  else self3

/-- What the reuse branch of `toplevel_to_activity` makes of the activity it
found: new geometry, no startup id, the toplevel attached. -/
def upgrade_activity (shell : PhoshShell) (toplevel : PhoshToplevel) (a : PhoshActivity) :
    PhoshActivity :=
  set_toplevel toplevel.handle (set_startup_id none
    (set_geometry shell.usable_width shell.usable_height toplevel.maximized
      toplevel.fullscreen a))

/-- The function `on_toplevel_added`. -/
def on_toplevel_added (shell : PhoshShell) (self : PhoshOverview) (toplevel : PhoshToplevel) :
    PhoshOverview :=
  toplevel_to_activity shell self toplevel

/-- The function `phosh_overview_init`: an empty carousel and `has_activities` at `-1`. -/
def phosh_overview_init : PhoshOverview :=
  { carousel_running_activities := []
    activity := none
    has_activities := -1
    next_ptr := 0
    scroll_target := none
    focus := none
    notifications := 0
    thumbnail_requests := [] }

/-- The function `get_running_activities` over the toplevels the manager lists. -/
def get_running_activities (shell : PhoshShell) (self : PhoshOverview)
    (toplevels : List PhoshToplevel) : PhoshOverview :=
  toplevels.foldl (toplevel_to_activity shell) (set_has_activities self)

/-- The function `phosh_overview_constructed`. -/
def phosh_overview_constructed (shell : PhoshShell) (self : PhoshOverview)
    (toplevels : List PhoshToplevel) : PhoshOverview :=
  get_running_activities shell self toplevels

/-! ## Event dispatch and well-formed states -/

/-- The launch tracker's and the toplevel manager's events, each with the
values the shell reports while its handler runs. -/
inductive Event where
  | app_launch_started (shell : PhoshShell) (info : GAppInfo) (startup_id : Option String)
  | app_ready (info : GAppInfo) (startup_id : Option String)
  | app_failed (info : GAppInfo) (startup_id : Option String)
  | toplevel_added (shell : PhoshShell) (toplevel : PhoshToplevel)
  | toplevel_closed (toplevel : PhoshToplevel)
  | toplevel_activated_changed (toplevel : PhoshToplevel)

/-- Run the handler connected to an event. -/
def dispatch (self : PhoshOverview) : Event → PhoshOverview
  | .app_launch_started shell info startup_id => on_app_launch_started shell self info startup_id
  | .app_ready info startup_id => on_app_ready self info startup_id
  | .app_failed info startup_id => on_app_failed self info startup_id
  | .toplevel_added shell toplevel => on_toplevel_added shell self toplevel
  | .toplevel_closed toplevel => on_toplevel_closed self toplevel
  | .toplevel_activated_changed toplevel => on_toplevel_activated_changed self toplevel

/-- The state after a sequence of events, processed in delivery order. -/
def run (self : PhoshOverview) (events : List Event) : PhoshOverview :=
  events.foldl dispatch self

/-- The overview right after construction with these toplevels already open. -/
def fresh_overview (shell : PhoshShell) (toplevels : List PhoshToplevel) : PhoshOverview :=
  phosh_overview_constructed shell phosh_overview_init toplevels

/-- Pointers are well formed: the children are distinct objects and every one
of them was allocated before `next_ptr`. -/
def ptrs_wf (self : PhoshOverview) : Prop :=
  (self.carousel_running_activities.map (fun a => a.ptr)).Nodup ∧
    ∀ a ∈ self.carousel_running_activities, a.ptr < self.next_ptr

instance (self : PhoshOverview) : Decidable (ptrs_wf self) := by
  unfold ptrs_wf; infer_instance

/-- The children bound to the toplevel with this handle. -/
def bound_entries (self : PhoshOverview) (handle : Nat) : List PhoshActivity :=
  self.carousel_running_activities.filter (fun a => decide (a.toplevel = some handle))

/-- A change of the carousel's children: an insert at a position, an append, or
the destruction of a child. -/
inductive CarouselOp where
  | insert (activity : PhoshActivity) (position : Nat)
  | add (activity : PhoshActivity)
  | destroy (ptr : Nat)

/-- Apply a change to the carousel; the page count notification runs
`on_n_pages_changed`. -/
def apply_op (self : PhoshOverview) : CarouselOp → PhoshOverview
  | .insert activity position => hdy_carousel_insert self activity position
  | .add activity => gtk_container_add self activity
  | .destroy ptr => gtk_widget_destroy self ptr

/-- Launches, each with the shell's values at its time, run in order. -/
def run_launches (self : PhoshOverview) (launches : List (PhoshShell × GAppInfo × Option String)) :
    PhoshOverview :=
  launches.foldl (fun st b => on_app_launch_started b.1 st b.2.1 b.2.2) self

/-- The events of a sequence of added toplevels, each with the shell's values at
its time. -/
def toplevel_added_events (toplevels : List (PhoshShell × PhoshToplevel)) : List Event :=
  toplevels.map (fun p => Event.toplevel_added p.1 p.2)

/-- The state after a sequence of changes of the carousel. -/
def run_ops (self : PhoshOverview) (ops : List CarouselOp) : PhoshOverview :=
  ops.foldl apply_op self

/-- The stored `has_activities` agrees with the carousel: `1` with at least one
page, `0` with none. -/
def has_activities_in_sync (self : PhoshOverview) : Prop :=
  self.has_activities = if self.carousel_running_activities.length ≠ 0 then 1 else 0

/-- An entry went into an empty carousel or the last entry left it. -/
def boundary_crossed (before after : PhoshOverview) : Prop :=
  (before.carousel_running_activities = [] ∧ after.carousel_running_activities ≠ []) ∨
  (before.carousel_running_activities ≠ [] ∧ after.carousel_running_activities = [])

/-- Every child that has a toplevel has no startup id. -/
def bound_without_startup_id (self : PhoshOverview) : Prop :=
  ∀ a ∈ self.carousel_running_activities, a.toplevel ≠ none → a.startup_id = none

/-! ## Concrete values used by the examples -/

/-- A shell in which app id `"a"` has the desktop file `a.desktop` and the
toplevel with handle 7, of app `"a"`, is the parent of whoever names it. -/
def ex_shell : PhoshShell :=
  { usable_width := 360
    usable_height := 720
    desktop_app_info_for_app_id := fun id => if id = "a" then some ⟨"a.desktop"⟩ else none
    toplevel_manager_get_parent := fun t =>
      if t.parent_handle = some 7 then some ⟨7, some "a", none, none, false, false, false⟩
      else none
    activity_default_app_info := fun _ => none }

/-- An activity bound to a toplevel, as `toplevel_to_activity` leaves it. -/
def ex_window_activity (ptr : Nat) (app_id : String) (handle : Nat) : PhoshActivity :=
  { ptr := ptr, app_info := none, app_id := some app_id, parent_app_id := none,
    win_width := 360, win_height := 720, maximized := false, fullscreen := false,
    startup_id := none, toplevel := some handle, has_thumbnail := false }

/-- An overview with the given children and next pointer. -/
def ex_overview (children : List PhoshActivity) (next_ptr : Nat) : PhoshOverview :=
  { carousel_running_activities := children, activity := none, has_activities := 1,
    next_ptr := next_ptr, scroll_target := none, focus := none, notifications := 2,
    thumbnail_requests := [] }

/-- Three window activities: apps a, a and b. -/
def ex_aab : PhoshOverview :=
  ex_overview [ex_window_activity 0 "a" 7, ex_window_activity 1 "a" 8,
    ex_window_activity 2 "b" 9] 3

/-- Window activities of apps x, y and a; the one of app a sits at index 2. -/
def ex_xya : PhoshOverview :=
  ex_overview [ex_window_activity 0 "x" 20, ex_window_activity 1 "y" 21,
    ex_window_activity 2 "a" 7] 3

/-- A window with the given handle and app id whose parent is toplevel 7 (app a). -/
def ex_child (handle : Nat) (app_id : String) : PhoshToplevel :=
  { handle := handle, app_id := some app_id, title := none, parent_handle := some 7,
    maximized := false, fullscreen := false, activated := false }

/-- A window of app b without a parent. -/
def ex_window (handle : Nat) : PhoshToplevel :=
  { handle := handle, app_id := some "b", title := none, parent_handle := none,
    maximized := false, fullscreen := false, activated := false }

/-- A window with the given handle and app id, without a parent. -/
def ex_window_of (handle : Nat) (app_id : String) : PhoshToplevel :=
  { handle := handle, app_id := some app_id, title := none, parent_handle := none,
    maximized := false, fullscreen := false, activated := false }

/-- The app info of app a. -/
def ex_info_a : GAppInfo := ⟨"a.desktop"⟩

/-- The initial overview after a launch of app a with startup id `"t0"`: one
splash of app a. -/
def ex_splash_a : PhoshOverview :=
  on_app_launch_started ex_shell phosh_overview_init ex_info_a (some "t0")

/-- The overview after that launch and the arrival of a window of app a: one
entry of app a, bound to window 5. -/
def ex_running_a : PhoshOverview :=
  on_toplevel_added ex_shell ex_splash_a (ex_window_of 5 "a")

/-! ## Calls on the collaborators and the handlers of user actions -/

/-- The signals of `PhoshOverview`. -/
inductive OverviewSignal where
  | activity_launched
  | activity_raised
  | activity_closed
  | selection_aborted
deriving DecidableEq, Repr

/-- A call a handler makes on a collaborator, with the arguments that matter:
on a toplevel (`phosh_toplevel_activate`, whose toplevel may be `NULL`,
`phosh_toplevel_close`, `phosh_toplevel_fullscreen`), on the splash manager
(`phosh_splash_manager_lower_all`, `phosh_splash_manager_raise`), on the feedback
service (`phosh_trigger_feedback`), or the emission of one of the overview's own
signals.  Log messages are not calls. -/
inductive Call where
  | toplevel_activate (toplevel : Option Nat)
  | toplevel_close (toplevel : Nat)
  | toplevel_fullscreen (toplevel : Nat) (fullscreen : Bool)
  | splash_manager_lower_all
  | splash_manager_raise (startup_id : String)
  | trigger_feedback (event : String)
  | signal_emit (signal : OverviewSignal)
deriving DecidableEq, Repr

/-- What the handlers read of the shell's state: `phosh_shell_get_docked` and
whether `phosh_shell_get_state` has `PHOSH_STATE_OVERVIEW` set. -/
structure PhoshShellState where
  docked : Bool
  overview : Bool
deriving DecidableEq, Repr

/-- The function `on_activity_clicked`. -/
def on_activity_clicked (self : PhoshOverview) (activity : PhoshActivity) :
    PhoshOverview × List Call :=
  match get_toplevel_from_activity (some activity) with
  | some toplevel =>
    (self, [Call.toplevel_activate (some toplevel), Call.splash_manager_lower_all,
      Call.signal_emit OverviewSignal.activity_raised])
  | none =>
    match activity.startup_id with
    | some startup_id =>
      (self, [Call.splash_manager_raise startup_id,
        Call.signal_emit OverviewSignal.activity_raised])
    | none => (self, [Call.signal_emit OverviewSignal.activity_raised])

/-- The function `on_activity_closed`; without a toplevel the type check fails
and the handler returns before any call. -/
def on_activity_closed (self : PhoshOverview) (activity : PhoshActivity) :
    PhoshOverview × List Call :=
  match activity.toplevel with
  | none => (self, [])
  | some toplevel =>
    (self, [Call.toplevel_close toplevel, Call.trigger_feedback "window-close",
      Call.signal_emit OverviewSignal.activity_closed])

/-- The function `on_activity_fullscreened`; without a toplevel the type check
fails and the handler returns before the call. -/
def on_activity_fullscreened (self : PhoshOverview) (fullscreen : Bool)
    (activity : PhoshActivity) : PhoshOverview × List Call :=
  match activity.toplevel with
  | none => (self, [])
  | some toplevel => (self, [Call.toplevel_fullscreen toplevel fullscreen])

/-- The function `on_activity_has_focus_changed`. -/
def on_activity_has_focus_changed (self : PhoshOverview) (activity : PhoshActivity) :
    PhoshOverview :=
  if self.focus = some activity.ptr then { self with scroll_target := some activity.ptr }
  else self

/-- The function `gtk_widget_grab_focus` on an activity: the activity gets the
focus, and an activity that `toplevel_to_activity` has connected (one with a
toplevel) is told so through `on_activity_has_focus_changed`. -/
def gtk_widget_grab_focus (self : PhoshOverview) (activity : PhoshActivity) : PhoshOverview :=
  let self1 := { self with focus := some activity.ptr }
  if activity.toplevel.isSome then on_activity_has_focus_changed self1 activity else self1

/-- The function `on_toplevel_changed`. -/
def on_toplevel_changed (state : PhoshShellState) (self : PhoshOverview)
    (toplevel : PhoshToplevel) : PhoshOverview :=
  if state.overview then self
  else
    match find_activity_by_toplevel self toplevel.handle with
    | none => self
    | some a => request_thumbnail self a.ptr toplevel

/-- The value of `(int)index` for a `guint` index. -/
def guint_as_int (index : Nat) : Int :=
  if index % 2 ^ 32 < 2 ^ 31 then (index % 2 ^ 32 : Nat)
  else ((index % 2 ^ 32 : Nat) : Int) - 2 ^ 32

/-- The function `on_page_changed`.  `g_list_nth_data` yields `NULL` beyond the end
of the list; on a `NULL` activity the focus calls fail their checks and do
nothing, while `phosh_toplevel_activate` is still called, without a toplevel. -/
def on_page_changed (state : PhoshShellState) (self : PhoshOverview) (index : Nat) :
    PhoshOverview × List Call :=
  if guint_as_int index < 0 then (self, [])
  else if state.docked then (self, [])
  else if !state.overview then (self, [])
  else
    let activity := self.carousel_running_activities[index % 2 ^ 32]?
    let toplevel := get_toplevel_from_activity activity
    let calls := [Call.toplevel_activate toplevel]
    match activity with
    | none => (self, calls)
    | some a =>
      if self.focus = some a.ptr then (self, calls) else (gtk_widget_grab_focus self a, calls)

/-- The pointer held by `activity` when `toplevel_to_activity` attaches the
toplevel: the reused activity or the one just created. -/
def toplevel_to_activity_ptr (shell : PhoshShell) (self : PhoshOverview)
    (toplevel : PhoshToplevel) : Nat :=
  match reusable_activity shell self toplevel with
  | some a => a.ptr
  | none => self.next_ptr

/-- A splash of the given app with the given startup id. -/
def ex_splash_activity (ptr : Nat) (info : GAppInfo) (startup_id : Option String) :
    PhoshActivity :=
  { ptr := ptr, app_info := some info, app_id := none, parent_app_id := none,
    win_width := 360, win_height := 720, maximized := false, fullscreen := false,
    startup_id := startup_id, toplevel := none, has_thumbnail := false }

/-- Calls on a collaborator, as opposed to the emission of one of the overview's
own signals. -/
def is_command : Call → Bool
  | Call.signal_emit _ => false
  | _ => true

/-- Calls on a toplevel of the toplevel manager. -/
def is_toplevel_call : Call → Bool
  | Call.toplevel_activate _ => true
  | Call.toplevel_close _ => true
  | Call.toplevel_fullscreen _ _ => true
  | _ => false

/-- The overview is shown and the shell is not docked. -/
def ex_overview_shown : PhoshShellState := { docked := false, overview := true }

/-- The overview is not shown. -/
def ex_overview_hidden : PhoshShellState := { docked := false, overview := false }

/-! ## Property bindings between a toplevel and its activity -/

/-- The flags of `g_object_bind_property` that matter here: with
`G_BINDING_DEFAULT` a change of the source property is written to the target
property; with `G_BINDING_BIDIRECTIONAL` a change of the target property is
written to the source property as well. -/
inductive GBindingFlags where
  | G_BINDING_DEFAULT
  | G_BINDING_BIDIRECTIONAL
deriving DecidableEq, Repr

/-- A binding made by `g_object_bind_property`: the source is a toplevel (its
handle), the target an activity (its pointer). -/
structure GBinding where
  source : Nat
  source_property : String
  target : Nat
  target_property : String
  flags : GBindingFlags
deriving DecidableEq, Repr

/-- The two `g_object_bind_property` calls at the end of `toplevel_to_activity`,
for the toplevel and the activity it was attached to. -/
def toplevel_to_activity_bindings (toplevel : PhoshToplevel) (activity : Nat) : List GBinding :=
  [{ source := toplevel.handle, source_property := "maximized", target := activity,
     target_property := "maximized", flags := GBindingFlags.G_BINDING_DEFAULT },
   { source := toplevel.handle, source_property := "fullscreen", target := activity,
     target_property := "fullscreen", flags := GBindingFlags.G_BINDING_DEFAULT }]

/-- Write a boolean property of an activity by name. -/
def set_activity_property (property : String) (value : Bool) (a : PhoshActivity) :
    PhoshActivity :=
  if property = "maximized" then { a with maximized := value }
  else if property = "fullscreen" then { a with fullscreen := value }
  else a

/-- Write a boolean property of a toplevel by name. -/
def set_toplevel_property (property : String) (value : Bool) (t : PhoshToplevel) :
    PhoshToplevel :=
  if property = "maximized" then { t with maximized := value }
  else if property = "fullscreen" then { t with fullscreen := value }
  else t

/-- The overview together with the toplevels of the toplevel manager and the
property bindings in force. -/
structure Desktop where
  overview : PhoshOverview
  toplevels : List PhoshToplevel
  bindings : List GBinding

/-- The function `toplevel_to_activity`, with the bindings it makes recorded. -/
def desktop_toplevel_to_activity (shell : PhoshShell) (d : Desktop) (toplevel : PhoshToplevel) :
    Desktop :=
  { overview := toplevel_to_activity shell d.overview toplevel
    toplevels := d.toplevels
    bindings := d.bindings ++
      toplevel_to_activity_bindings toplevel (toplevel_to_activity_ptr shell d.overview toplevel) }

/-- One binding reacting to a change of a toplevel's property: if the toplevel
and the property are its source, the value is written to its target. -/
def binding_source_changed (handle : Nat) (property : String) (value : Bool)
    (overview : PhoshOverview) (b : GBinding) : PhoshOverview :=
  if b.source = handle ∧ b.source_property = property then
    update_activity overview b.target (set_activity_property b.target_property value)
  else overview

/-- One binding reacting to a change of an activity's property: only a
bidirectional binding whose target it is writes the value back to its source. -/
def binding_target_changed (ptr : Nat) (property : String) (value : Bool)
    (toplevels : List PhoshToplevel) (b : GBinding) : List PhoshToplevel :=
  if b.target = ptr ∧ b.target_property = property ∧
      b.flags = GBindingFlags.G_BINDING_BIDIRECTIONAL then
    toplevels.map (fun t =>
      if t.handle = b.source then set_toplevel_property b.source_property value t else t)
  else toplevels

/-- A toplevel's property takes a new value: the toplevel holds it and every
binding reacts. -/
def toplevel_property_changed (d : Desktop) (handle : Nat) (property : String) (value : Bool) :
    Desktop :=
  { overview := d.bindings.foldl (binding_source_changed handle property value) d.overview
    toplevels := d.toplevels.map (fun t =>
      if t.handle = handle then set_toplevel_property property value t else t)
    bindings := d.bindings }

/-- An activity's property takes a new value: the activity holds it and every
binding reacts. -/
def activity_property_changed (d : Desktop) (ptr : Nat) (property : String) (value : Bool) :
    Desktop :=
  { overview := update_activity d.overview ptr (set_activity_property property value)
    toplevels := d.bindings.foldl (binding_target_changed ptr property value) d.toplevels
    bindings := d.bindings }

/-- A desktop with window 5 of app a open, a fresh overview and no bindings. -/
def ex_desktop : Desktop :=
  { overview := phosh_overview_init, toplevels := [ex_window_of 5 "a"], bindings := [] }

/-! ## The channel bar (`settings/channel-bar.c`) -/

/-- The constant `PA_VOLUME_NORM` of PulseAudio, `0x10000`. -/
def PA_VOLUME_NORM : Nat := 0x10000

/-- The macro `ADJUSTMENT_MAX_NORMAL`. -/
def ADJUSTMENT_MAX_NORMAL : Nat := PA_VOLUME_NORM

/-- A mark of the scale: its value and its markup (with the untranslated text). -/
structure ScaleMark where
  value : Nat
  markup : String
deriving DecidableEq, Repr

/-- The fields of `PhoshChannelBar` that the volume functions use, with the upper
bound of its adjustment, the marks of its scale and the number of `is-amplified`
notifications. -/
structure PhoshChannelBar where
  is_muted : Bool
  click_lock : Bool
  is_amplified : Bool
  base_volume : Nat
  adjustment_upper : Nat
  marks : List ScaleMark
  is_amplified_notifications : Nat
deriving DecidableEq, Repr

/-- The macro `ADJUSTMENT_MAX`; `ui_max` stands for `PA_VOLUME_UI_MAX`, which
PulseAudio computes. -/
def ADJUSTMENT_MAX (ui_max : Nat) (self : PhoshChannelBar) : Nat :=
  if self.is_amplified then ui_max else ADJUSTMENT_MAX_NORMAL

/-- The marks `phosh_channel_bar_set_is_amplified` adds for an amplified bar.
`G_APPROX_VALUE` with `DBL_EPSILON` on these whole numbers is equality. -/
def amplified_marks (base_volume : Nat) : List ScaleMark :=
  if base_volume = ADJUSTMENT_MAX_NORMAL then
    [{ value := ADJUSTMENT_MAX_NORMAL, markup := "<small>100%</small>" }]
  else
    [{ value := base_volume, markup := "<small>Unamplified</small>" }] ++
      (if base_volume < ADJUSTMENT_MAX_NORMAL then
        [{ value := ADJUSTMENT_MAX_NORMAL, markup := "<small>100%</small>" }]
      else [])

/-- The marks the body of `phosh_channel_bar_set_is_amplified` leaves on the scale
for a base volume and a flag: it clears the marks and adds new ones only for an
amplified bar. -/
def marks_for (base_volume : Nat) (amplified : Bool) : List ScaleMark :=
  if amplified then amplified_marks base_volume else []

/-- The function `phosh_channel_bar_set_is_amplified`. -/
def phosh_channel_bar_set_is_amplified (ui_max : Nat) (self : PhoshChannelBar)
    (amplified : Bool) : PhoshChannelBar :=
  if self.is_amplified = amplified then self
  else
    let self1 := { self with is_amplified := amplified }
    let self2 := { self1 with adjustment_upper := ADJUSTMENT_MAX ui_max self1, marks := [] }
    let self3 :=
      if amplified then { self2 with marks := self2.marks ++ amplified_marks self2.base_volume }
      else self2
    { self3 with is_amplified_notifications := self3.is_amplified_notifications + 1 }

/-- The function `phosh_channel_bar_set_base_volume`. -/
def phosh_channel_bar_set_base_volume (self : PhoshChannelBar) (base_volume : Nat) :
    PhoshChannelBar :=
  if base_volume = 0 then { self with base_volume := ADJUSTMENT_MAX_NORMAL }
  else { self with base_volume := base_volume }

/-- The function `phosh_channel_bar_init`: a bar that is not amplified, with the
base volume and the upper bound at `ADJUSTMENT_MAX_NORMAL` and no marks. -/
def phosh_channel_bar_init : PhoshChannelBar :=
  { is_muted := false
    click_lock := false
    is_amplified := false
    base_volume := ADJUSTMENT_MAX_NORMAL
    adjustment_upper := ADJUSTMENT_MAX_NORMAL
    marks := []
    is_amplified_notifications := 0 }

/-- The two calls `update_output_vol_bar` makes on the bar for a stream's base
volume and the amplified flag it computes. -/
def update_output_vol_bar_marks (ui_max : Nat) (self : PhoshChannelBar) (base_volume : Nat)
    (amplified : Bool) : PhoshChannelBar :=
  phosh_channel_bar_set_is_amplified ui_max
    (phosh_channel_bar_set_base_volume self base_volume) amplified

/-- The focused-entry reference `priv->activity` is `NULL` or points at a child of
the carousel that has a toplevel. -/
def focus_valid (self : PhoshOverview) : Prop :=
  ∀ p, self.activity = some p →
    ∃ e ∈ self.carousel_running_activities, e.ptr = p ∧ e.toplevel ≠ none

/-- The children that have a toplevel, in their order. -/
def window_entries (self : PhoshOverview) : List PhoshActivity :=
  self.carousel_running_activities.filter (fun a => decide (a.toplevel ≠ none))

/-- The children without a toplevel, in their order. -/
def splash_entries (self : PhoshOverview) : List PhoshActivity :=
  self.carousel_running_activities.filter (fun a => decide (a.toplevel = none))

/-- App a runs in window 5 and a second launch of a, with startup id `"t1"`, is
pending. -/
def ex_running_and_splash_a : PhoshOverview :=
  on_app_launch_started ex_shell ex_running_a ex_info_a (some "t1")

/-! ## Headphone detection (`settings/audio-settings.c`) -/

/-- The struct `GvcMixerStreamPort`, of which only the name `port` is read. -/
structure GvcMixerStreamPort where
  port : Option String
deriving DecidableEq, Repr

/-- A `GvcMixerStream` as `stream_uses_headphones` sees it: what
`gvc_mixer_stream_get_form_factor` and `gvc_mixer_stream_get_port` return. -/
structure GvcMixerStream where
  form_factor : Option String
  port : Option GvcMixerStreamPort
deriving DecidableEq, Repr

/-- The test `g_strcmp0 (a, b) == 0`: both `NULL`, or equal strings. -/
def g_strcmp0_is_zero (a b : Option String) : Bool :=
  decide (a = b)

/-- The function `stream_uses_headphones`. -/
def stream_uses_headphones (stream : GvcMixerStream) : Bool :=
  if g_strcmp0_is_zero stream.form_factor (some "headset") ||
      g_strcmp0_is_zero stream.form_factor (some "headphone") then true
  else
    match stream.port with
    | none => false
    | some port =>
      if g_strcmp0_is_zero port.port (some "[Out] Headphones") ||
          g_strcmp0_is_zero port.port (some "analog-output-headphones") then true
      else false

/-! ## Basic facts about the primitives -/

@[simp] theorem set_has_activities_carousel (s : PhoshOverview) :
    (set_has_activities s).carousel_running_activities = s.carousel_running_activities := by
  unfold set_has_activities; dsimp only; split_ifs <;> rfl

@[simp] theorem set_has_activities_activity (s : PhoshOverview) :
    (set_has_activities s).activity = s.activity := by
  unfold set_has_activities; dsimp only; split_ifs <;> rfl

@[simp] theorem set_has_activities_next_ptr (s : PhoshOverview) :
    (set_has_activities s).next_ptr = s.next_ptr := by
  unfold set_has_activities; dsimp only; split_ifs <;> rfl

@[simp] theorem set_has_activities_scroll_target (s : PhoshOverview) :
    (set_has_activities s).scroll_target = s.scroll_target := by
  unfold set_has_activities; dsimp only; split_ifs <;> rfl

@[simp] theorem set_has_activities_focus (s : PhoshOverview) :
    (set_has_activities s).focus = s.focus := by
  unfold set_has_activities; dsimp only; split_ifs <;> rfl

@[simp] theorem carousel_set_children_carousel (s : PhoshOverview) (l : List PhoshActivity) :
    (carousel_set_children s l).carousel_running_activities = l := by
  simp [carousel_set_children, on_n_pages_changed]

@[simp] theorem carousel_set_children_activity (s : PhoshOverview) (l : List PhoshActivity) :
    (carousel_set_children s l).activity = s.activity := by
  simp [carousel_set_children, on_n_pages_changed]

@[simp] theorem carousel_set_children_next_ptr (s : PhoshOverview) (l : List PhoshActivity) :
    (carousel_set_children s l).next_ptr = s.next_ptr := by
  simp [carousel_set_children, on_n_pages_changed]

@[simp] theorem carousel_set_children_scroll_target (s : PhoshOverview) (l : List PhoshActivity) :
    (carousel_set_children s l).scroll_target = s.scroll_target := by
  simp [carousel_set_children, on_n_pages_changed]

@[simp] theorem carousel_set_children_focus (s : PhoshOverview) (l : List PhoshActivity) :
    (carousel_set_children s l).focus = s.focus := by
  simp [carousel_set_children, on_n_pages_changed]

@[simp] theorem gtk_widget_destroy_carousel (s : PhoshOverview) (ptr : Nat) :
    (gtk_widget_destroy s ptr).carousel_running_activities =
      s.carousel_running_activities.filter (fun a => a.ptr ≠ ptr) := by
  simp [gtk_widget_destroy]

@[simp] theorem gtk_widget_destroy_activity (s : PhoshOverview) (ptr : Nat) :
    (gtk_widget_destroy s ptr).activity = s.activity := by
  simp [gtk_widget_destroy]

@[simp] theorem gtk_widget_destroy_next_ptr (s : PhoshOverview) (ptr : Nat) :
    (gtk_widget_destroy s ptr).next_ptr = s.next_ptr := by
  simp [gtk_widget_destroy]

/-- Walking backwards over children that do not match only decrements `pos`. -/
theorem get_last_app_id_pos_loop_skip (id : String) (r1 r2 : List PhoshActivity) (pos : Nat)
    (h : ∀ x ∈ r1, x.app_id ≠ some id) :
    get_last_app_id_pos_loop id (r1 ++ r2) pos =
      get_last_app_id_pos_loop id r2 (pos - r1.length) := by
  induction r1 generalizing pos with
  | nil => simp
  | cons a r ih =>
    have ha : a.app_id ≠ some id := h a (List.mem_cons_self _ _)
    have hr : ∀ x ∈ r, x.app_id ≠ some id := fun x hx => h x (List.mem_cons_of_mem _ hx)
    rw [List.cons_append, get_last_app_id_pos_loop, if_neg ha, ih _ hr, List.length_cons]
    congr 1
    omega

/-- With a last match at index `pre.length` the position is one past it. -/
theorem get_last_app_id_pos_found (s : PhoshOverview) (P : String) (pre post : List PhoshActivity)
    (e : PhoshActivity) (hs : s.carousel_running_activities = pre ++ e :: post)
    (he : e.app_id = some P) (hpost : ∀ x ∈ post, x.app_id ≠ some P) :
    get_last_app_id_pos s (some P) = pre.length + 1 := by
  have hrev : (pre ++ e :: post).reverse = post.reverse ++ (e :: pre.reverse) := by simp
  simp only [get_last_app_id_pos, hs, hrev]
  rw [get_last_app_id_pos_loop_skip P _ _ _ (fun x hx => hpost x (List.mem_reverse.mp hx))]
  simp only [get_last_app_id_pos_loop, he, if_true, List.length_reverse, List.length_append,
    List.length_cons]
  omega

/-- Without a match the position is zero. -/
theorem get_last_app_id_pos_none (s : PhoshOverview) (P : String)
    (h : ∀ x ∈ s.carousel_running_activities, x.app_id ≠ some P) :
    get_last_app_id_pos s (some P) = 0 := by
  have := get_last_app_id_pos_loop_skip P s.carousel_running_activities.reverse []
    s.carousel_running_activities.length (fun x hx => h x (List.mem_reverse.mp hx))
  simp only [List.append_nil] at this
  simp [get_last_app_id_pos, this, get_last_app_id_pos_loop]

/-- The position never exceeds the number of children. -/
theorem get_last_app_id_pos_loop_le (id : String) (r : List PhoshActivity) (pos : Nat) :
    get_last_app_id_pos_loop id r pos ≤ pos := by
  induction r generalizing pos with
  | nil => simp [get_last_app_id_pos_loop]
  | cons a r ih =>
    rw [get_last_app_id_pos_loop]
    split_ifs
    · exact le_refl _
    · exact le_trans (ih _) (Nat.sub_le _ _)

/-- The children after `create_new_activity`. -/
theorem create_new_activity_carousel (shell : PhoshShell) (s : PhoshOverview)
    (info : Option GAppInfo) (toplevel : Option PhoshToplevel) (app_id parent : Option String) :
    (create_new_activity shell s info toplevel app_id parent).1.carousel_running_activities =
      if insert_pos s parent ≠ 0 then
        insert_at s.carousel_running_activities
          (phosh_activity_new shell s info toplevel app_id parent) (insert_pos s parent)
      else s.carousel_running_activities ++
          [phosh_activity_new shell s info toplevel app_id parent] := by
  unfold create_new_activity
  dsimp only
  split_ifs <;> simp [hdy_carousel_insert, gtk_container_add]

@[simp] theorem create_new_activity_ptr (shell : PhoshShell) (s : PhoshOverview)
    (info : Option GAppInfo) (toplevel : Option PhoshToplevel) (app_id parent : Option String) :
    (create_new_activity shell s info toplevel app_id parent).2 = s.next_ptr := by
  unfold create_new_activity; dsimp only; split_ifs <;> rfl

@[simp] theorem create_new_activity_next_ptr (shell : PhoshShell) (s : PhoshOverview)
    (info : Option GAppInfo) (toplevel : Option PhoshToplevel) (app_id parent : Option String) :
    (create_new_activity shell s info toplevel app_id parent).1.next_ptr = s.next_ptr + 1 := by
  unfold create_new_activity; dsimp only
  split_ifs <;> simp [hdy_carousel_insert, gtk_container_add]

@[simp] theorem create_new_activity_activity (shell : PhoshShell) (s : PhoshOverview)
    (info : Option GAppInfo) (toplevel : Option PhoshToplevel) (app_id parent : Option String) :
    (create_new_activity shell s info toplevel app_id parent).1.activity = s.activity := by
  unfold create_new_activity; dsimp only
  split_ifs <;> simp [hdy_carousel_insert, gtk_container_add]

/-- Inserting keeps the old children in their order. -/
theorem sublist_insert_at (l : List PhoshActivity) (a : PhoshActivity) (k : Nat) :
    List.Sublist l (insert_at l a k) := by
  unfold insert_at
  conv_lhs => rw [← List.take_append_drop k l]
  exact List.Sublist.append (List.Sublist.refl _) (List.sublist_cons_self _ _)

/-- The children `create_new_activity` leaves, in either branch, are the old
ones with the new activity put in at some position. -/
theorem create_new_activity_insert_at (shell : PhoshShell) (s : PhoshOverview)
    (info : Option GAppInfo) (toplevel : Option PhoshToplevel) (app_id parent : Option String) :
    ∃ k, (create_new_activity shell s info toplevel app_id parent).1.carousel_running_activities =
      insert_at s.carousel_running_activities
        (phosh_activity_new shell s info toplevel app_id parent) k := by
  rw [create_new_activity_carousel]
  split_ifs
  · exact ⟨_, rfl⟩
  · exact ⟨s.carousel_running_activities.length, by simp [insert_at]⟩

/-! ## Insertion position (C1, C2) -/

/-- Inserting right after the entry at index `pre.length`. -/
theorem insert_at_mid (pre post : List PhoshActivity) (e a : PhoshActivity) :
    insert_at (pre ++ e :: post) a (pre.length + 1) = pre ++ e :: a :: post := by
  have h : pre ++ e :: post = (pre ++ [e]) ++ post := by simp
  have hl : pre.length + 1 = (pre ++ [e]).length := by simp
  unfold insert_at
  rw [h, hl, List.take_left, List.drop_left]
  simp

/-- Claim C1: the new entry goes right after the last entry whose app id is the
parent app id (and `get_last_app_id_pos` is that entry's index plus one); with no
such entry, or no parent app id, the position is zero and the entry is appended.
The entries already present keep their relative order. -/
theorem create_new_activity_after_last_parent (shell : PhoshShell) (self : PhoshOverview)
    (info : Option GAppInfo) (toplevel : Option PhoshToplevel) (app_id : Option String) :
    (∀ (P : String) (pre post : List PhoshActivity) (e : PhoshActivity),
        self.carousel_running_activities = pre ++ e :: post → e.app_id = some P →
        (∀ x ∈ post, x.app_id ≠ some P) →
        get_last_app_id_pos self (some P) = pre.length + 1 ∧
        (create_new_activity shell self info toplevel app_id (some P)).1.carousel_running_activities
          = pre ++ e :: phosh_activity_new shell self info toplevel app_id (some P) :: post) ∧
    (∀ P : String, (∀ x ∈ self.carousel_running_activities, x.app_id ≠ some P) →
        get_last_app_id_pos self (some P) = 0 ∧
        (create_new_activity shell self info toplevel app_id (some P)).1.carousel_running_activities
          = self.carousel_running_activities ++
              [phosh_activity_new shell self info toplevel app_id (some P)]) ∧
    (get_last_app_id_pos self none = 0 ∧
        (create_new_activity shell self info toplevel app_id none).1.carousel_running_activities
          = self.carousel_running_activities ++
              [phosh_activity_new shell self info toplevel app_id none]) ∧
    (∀ P : Option String, List.Sublist self.carousel_running_activities
        (create_new_activity shell self info toplevel app_id P).1.carousel_running_activities) := by
  refine ⟨?_, ?_, ?_, ?_⟩
  · intro P pre post e hs he hpost
    have hpos := get_last_app_id_pos_found self P pre post e hs he hpost
    refine ⟨hpos, ?_⟩
    rw [create_new_activity_carousel]
    simp only [insert_pos, hpos]
    rw [if_pos (Nat.succ_ne_zero _), hs, insert_at_mid]
  · intro P h
    have hpos := get_last_app_id_pos_none self P h
    refine ⟨hpos, ?_⟩
    rw [create_new_activity_carousel]
    simp [insert_pos, hpos]
  · refine ⟨rfl, ?_⟩
    rw [create_new_activity_carousel]
    simp [insert_pos]
  · intro P
    obtain ⟨k, hk⟩ := create_new_activity_insert_at shell self info toplevel app_id P
    rw [hk]
    exact sublist_insert_at _ _ _

/-- Witness for C1: with apps a, a, b the position for parent `"a"` is 2 and the new
entry (pointer 3) lands between the second a and b. -/
theorem create_new_activity_after_last_parent_witness :
    get_last_app_id_pos ex_aab (some "a") = 2 ∧
      (create_new_activity ex_shell ex_aab none none (some "c")
        (some "a")).1.carousel_running_activities.map (fun a => a.ptr) = [0, 1, 3, 2] := by
  have h := (create_new_activity_after_last_parent ex_shell ex_aab none none (some "c")).1 "a"
    [ex_window_activity 0 "a" 7] [ex_window_activity 2 "b" 9] (ex_window_activity 1 "a" 8)
    rfl rfl (by decide)
  refine ⟨h.1, ?_⟩
  rw [h.2]
  rfl

/-! ## Updates of activity objects -/

@[simp] theorem update_activity_carousel (s : PhoshOverview) (p : Nat)
    (f : PhoshActivity → PhoshActivity) :
    (update_activity s p f).carousel_running_activities =
      s.carousel_running_activities.map (update_at p f) := rfl

@[simp] theorem update_activity_next_ptr (s : PhoshOverview) (p : Nat)
    (f : PhoshActivity → PhoshActivity) : (update_activity s p f).next_ptr = s.next_ptr := rfl

@[simp] theorem update_activity_activity (s : PhoshOverview) (p : Nat)
    (f : PhoshActivity → PhoshActivity) : (update_activity s p f).activity = s.activity := rfl

/-- An update of an object that is not among the children changes no child. -/
theorem map_update_at_fresh (l : List PhoshActivity) (p : Nat)
    (f : PhoshActivity → PhoshActivity) (h : ∀ a ∈ l, a.ptr ≠ p) :
    l.map (update_at p f) = l := by
  induction l with
  | nil => rfl
  | cons a l ih =>
    have ha : a.ptr ≠ p := h a (List.mem_cons_self _ _)
    rw [List.map_cons, ih (fun x hx => h x (List.mem_cons_of_mem _ hx))]
    simp [update_at, ha]

@[simp] theorem set_toplevel_ptr (h : Nat) (a : PhoshActivity) : (set_toplevel h a).ptr = a.ptr :=
  rfl

@[simp] theorem set_startup_id_ptr (t : Option String) (a : PhoshActivity) :
    (set_startup_id t a).ptr = a.ptr := rfl

@[simp] theorem upgrade_activity_ptr (shell : PhoshShell) (w : PhoshToplevel)
    (a : PhoshActivity) : (upgrade_activity shell w a).ptr = a.ptr := rfl

/-- Updating through a setter that keeps the pointer keeps every pointer. -/
theorem update_at_ptr (p : Nat) (f : PhoshActivity → PhoshActivity)
    (hf : ∀ a, (f a).ptr = a.ptr) (a : PhoshActivity) : (update_at p f a).ptr = a.ptr := by
  unfold update_at; split_ifs
  · exact hf a
  · rfl

theorem map_ptr_update_at (l : List PhoshActivity) (p : Nat)
    (f : PhoshActivity → PhoshActivity) (hf : ∀ a, (f a).ptr = a.ptr) :
    (l.map (update_at p f)).map (fun a => a.ptr) = l.map (fun a => a.ptr) := by
  rw [List.map_map]
  exact List.map_congr_left (fun a _ => update_at_ptr p f hf a)

/-! ## The children after each handler -/

/-- The reuse branch: the found activity is upgraded in place. -/
theorem toplevel_to_activity_carousel_reuse (shell : PhoshShell) (s : PhoshOverview)
    (w : PhoshToplevel) (a : PhoshActivity) (h : reusable_activity shell s w = some a) :
    (toplevel_to_activity shell s w).carousel_running_activities =
      s.carousel_running_activities.map (update_at a.ptr (upgrade_activity shell w)) := by
  have hmap : ∀ l : List PhoshActivity,
      ((l.map (update_at a.ptr (set_geometry shell.usable_width shell.usable_height w.maximized
        w.fullscreen))).map (update_at a.ptr (set_startup_id none))).map
          (update_at a.ptr (set_toplevel w.handle)) =
        l.map (update_at a.ptr (upgrade_activity shell w)) := by
    intro l
    rw [List.map_map, List.map_map]
    apply List.map_congr_left
    intro x _
    by_cases hx : x.ptr = a.ptr
    · simp [update_at, hx, upgrade_activity, set_geometry, set_startup_id, set_toplevel]
    · simp [update_at, hx]
  unfold toplevel_to_activity
  simp only [h]
  split_ifs <;> exact hmap _

/-- The create branch: a new activity is put in and the toplevel attached to it. -/
theorem toplevel_to_activity_carousel_create (shell : PhoshShell) (s : PhoshOverview)
    (w : PhoshToplevel) (h : reusable_activity shell s w = none) :
    (toplevel_to_activity shell s w).carousel_running_activities =
      (create_new_activity shell s none (some w) w.app_id
        (resolve_parent_app_id shell w)).1.carousel_running_activities.map
          (update_at s.next_ptr (set_toplevel w.handle)) := by
  unfold toplevel_to_activity
  simp only [h]
  split_ifs <;> simp [scroll_to_activity]

theorem toplevel_to_activity_next_ptr_reuse (shell : PhoshShell) (s : PhoshOverview)
    (w : PhoshToplevel) (a : PhoshActivity) (h : reusable_activity shell s w = some a) :
    (toplevel_to_activity shell s w).next_ptr = s.next_ptr := by
  unfold toplevel_to_activity
  simp only [h]
  split_ifs <;> rfl

theorem toplevel_to_activity_next_ptr_create (shell : PhoshShell) (s : PhoshOverview)
    (w : PhoshToplevel) (h : reusable_activity shell s w = none) :
    (toplevel_to_activity shell s w).next_ptr = s.next_ptr + 1 := by
  unfold toplevel_to_activity
  simp only [h]
  split_ifs <;> simp [scroll_to_activity]

/-- The children after a launch: the splash is appended and its startup id set. -/
theorem on_app_launch_started_carousel (shell : PhoshShell) (s : PhoshOverview)
    (info : GAppInfo) (t : Option String) :
    (on_app_launch_started shell s info t).carousel_running_activities =
      (s.carousel_running_activities ++ [phosh_activity_new shell s (some info) none none none]).map
        (update_at s.next_ptr (set_startup_id t)) := by
  unfold on_app_launch_started
  simp [create_new_activity_carousel, insert_pos]

@[simp] theorem on_app_launch_started_next_ptr (shell : PhoshShell) (s : PhoshOverview)
    (info : GAppInfo) (t : Option String) :
    (on_app_launch_started shell s info t).next_ptr = s.next_ptr + 1 := by
  unfold on_app_launch_started
  simp

@[simp] theorem on_app_launch_started_activity (shell : PhoshShell) (s : PhoshOverview)
    (info : GAppInfo) (t : Option String) :
    (on_app_launch_started shell s info t).activity = s.activity := by
  unfold on_app_launch_started
  simp

/-! ## Child windows (C2) -/

@[simp] theorem update_at_set_toplevel_app_id (p h : Nat) (a : PhoshActivity) :
    (update_at p (set_toplevel h) a).app_id = a.app_id := by
  unfold update_at; split_ifs <;> rfl

@[simp] theorem update_at_set_toplevel_app_info (p h : Nat) (a : PhoshActivity) :
    (update_at p (set_toplevel h) a).app_info = a.app_info := by
  unfold update_at; split_ifs <;> rfl

@[simp] theorem update_at_set_startup_id_app_id (p : Nat) (t : Option String)
    (a : PhoshActivity) : (update_at p (set_startup_id t) a).app_id = a.app_id := by
  unfold update_at; split_ifs <;> rfl

@[simp] theorem update_at_set_startup_id_app_info (p : Nat) (t : Option String)
    (a : PhoshActivity) : (update_at p (set_startup_id t) a).app_info = a.app_info := by
  unfold update_at; split_ifs <;> rfl

@[simp] theorem update_at_set_startup_id_toplevel (p : Nat) (t : Option String)
    (a : PhoshActivity) : (update_at p (set_startup_id t) a).toplevel = a.toplevel := by
  unfold update_at; split_ifs <;> rfl

@[simp] theorem update_at_set_startup_id_ptr (p : Nat) (t : Option String)
    (a : PhoshActivity) : (update_at p (set_startup_id t) a).ptr = a.ptr := by
  unfold update_at; split_ifs <;> rfl

@[simp] theorem update_at_set_toplevel_ptr (p h : Nat) (a : PhoshActivity) :
    (update_at p (set_toplevel h) a).ptr = a.ptr := by
  unfold update_at; split_ifs <;> rfl

/-- Attaching a toplevel never detaches one. -/
theorem update_at_set_toplevel_ne_none (p h : Nat) (a : PhoshActivity)
    (ha : a.toplevel ≠ none) : (update_at p (set_toplevel h) a).toplevel ≠ none := by
  unfold update_at; split_ifs
  · simp [set_toplevel]
  · exact ha

/-- The element right after a prefix. -/
theorem getElem?_of_split (pre post : List PhoshActivity) (c : PhoshActivity) :
    (pre ++ c :: post)[pre.length]? = some c := by
  rw [List.getElem?_append_right (le_refl _)]
  simp

/-- Finding by app info yields a child with that app info. -/
theorem find_activity_by_app_info_some (s : PhoshOverview) (i : GAppInfo) (a : PhoshActivity)
    (h : find_activity_by_app_info s i = some a) :
    a ∈ s.carousel_running_activities ∧ a.app_info = some i := by
  unfold find_activity_by_app_info at h
  refine ⟨List.mem_of_find?_eq_some h, ?_⟩
  have hp := List.find?_some h
  cases hinfo : a.app_info with
  | none => simp [app_info_matches, hinfo] at hp
  | some j =>
    simp only [app_info_matches, hinfo, decide_eq_true_eq] at hp
    rw [hp]

/-- When every child with the window's app info already has a toplevel, no child
is reused. -/
theorem reusable_activity_none_of_backed (shell : PhoshShell) (s : PhoshOverview)
    (w : PhoshToplevel) (A : String) (hw : w.app_id = some A)
    (h : ∀ i, shell.desktop_app_info_for_app_id A = some i →
      ∀ x ∈ s.carousel_running_activities, x.app_info = some i → x.toplevel ≠ none) :
    reusable_activity shell s w = none := by
  unfold reusable_activity find_activity_by_app_id
  rw [hw]
  dsimp only
  cases hl : shell.desktop_app_info_for_app_id A with
  | none => rfl
  | some i =>
    dsimp only
    cases hf : find_activity_by_app_info s i with
    | none => rfl
    | some a =>
      dsimp only
      obtain ⟨hmem, hinfo⟩ := find_activity_by_app_info_some s i a hf
      have hne := h i hl a hmem hinfo
      cases ht : a.toplevel with
      | none => exact absurd ht hne
      | some t => simp [get_toplevel_from_activity, ht]

/-- The create branch with a parent app id whose last entry is `e`. -/
theorem toplevel_to_activity_after_parent (shell : PhoshShell) (s : PhoshOverview)
    (w : PhoshToplevel) (A : String) (pre post : List PhoshActivity) (e : PhoshActivity)
    (hs : s.carousel_running_activities = pre ++ e :: post) (he : e.app_id = some A)
    (hpost : ∀ x ∈ post, x.app_id ≠ some A)
    (hp : resolve_parent_app_id shell w = some A)
    (hr : reusable_activity shell s w = none) :
    (toplevel_to_activity shell s w).carousel_running_activities =
      (pre ++ e :: phosh_activity_new shell s none (some w) w.app_id (some A) :: post).map
        (update_at s.next_ptr (set_toplevel w.handle)) := by
  rw [toplevel_to_activity_carousel_create shell s w hr, hp, create_new_activity_carousel]
  have hpos := get_last_app_id_pos_found s A pre post e hs he hpost
  simp only [insert_pos, hpos]
  rw [if_pos (Nat.succ_ne_zero _), hs, insert_at_mid]

/-- The grouping state between the two children: the first child sits right after
the prefix, is the last child of app `A`, and no splash of `A` is pending. -/
theorem child_group_after_launches (shell : PhoshShell) (A : String) (h1 n p : Nat)
    (launches : List (PhoshShell × GAppInfo × Option String))
    (hl : ∀ b ∈ launches, shell.desktop_app_info_for_app_id A ≠ some b.2.1)
    (st : PhoshOverview)
    (hst : ∃ pre1 c post1, st.carousel_running_activities = pre1 ++ c :: post1 ∧
      pre1.length = n ∧ c.app_id = some A ∧ c.toplevel = some h1 ∧ c.ptr = p ∧ c.ptr < st.next_ptr ∧
      (∀ x ∈ post1, x.app_id ≠ some A) ∧
      (∀ i, shell.desktop_app_info_for_app_id A = some i →
        ∀ x ∈ st.carousel_running_activities, x.app_info = some i → x.toplevel ≠ none)) :
    ∃ pre1 c post1, (run_launches st launches).carousel_running_activities = pre1 ++ c :: post1 ∧
      pre1.length = n ∧ c.app_id = some A ∧ c.toplevel = some h1 ∧ c.ptr = p ∧
      c.ptr < (run_launches st launches).next_ptr ∧
      (∀ x ∈ post1, x.app_id ≠ some A) ∧
      (∀ i, shell.desktop_app_info_for_app_id A = some i →
        ∀ x ∈ (run_launches st launches).carousel_running_activities,
          x.app_info = some i → x.toplevel ≠ none) := by
  induction launches generalizing st with
  | nil => exact hst
  | cons b rest ih =>
    have hb := hl b (List.mem_cons_self _ _)
    apply ih (fun x hx => hl x (List.mem_cons_of_mem _ hx))
    obtain ⟨pre1, c, post1, hc, hlen, happ, htop, hp, hptr, hpost, hback⟩ := hst
    refine ⟨pre1.map (update_at st.next_ptr (set_startup_id b.2.2)),
      update_at st.next_ptr (set_startup_id b.2.2) c,
      (post1 ++ [phosh_activity_new b.1 st (some b.2.1) none none none]).map
        (update_at st.next_ptr (set_startup_id b.2.2)), ?_, ?_, ?_, ?_, ?_, ?_, ?_, ?_⟩
    · rw [on_app_launch_started_carousel, hc]; simp
    · simpa using hlen
    · simpa using happ
    · simpa using htop
    · simpa using hp
    · simp only [update_at_set_startup_id_ptr, on_app_launch_started_next_ptr]; omega
    · intro x hx
      obtain ⟨y, hy, rfl⟩ := List.mem_map.mp hx
      rw [update_at_set_startup_id_app_id]
      rcases List.mem_append.mp hy with hy | hy
      · exact hpost y hy
      · rw [List.mem_singleton.mp hy]; simp [phosh_activity_new]
    · intro i hi x hx hinfo
      rw [on_app_launch_started_carousel] at hx
      obtain ⟨y, hy, rfl⟩ := List.mem_map.mp hx
      rw [update_at_set_startup_id_app_info] at hinfo
      rw [update_at_set_startup_id_toplevel]
      rcases List.mem_append.mp hy with hy | hy
      · exact hback i hi y hy hinfo
      · rw [List.mem_singleton.mp hy] at hinfo
        simp only [phosh_activity_new, phosh_activity_new_app_info, Option.some.injEq] at hinfo
        exact absurd (hinfo ▸ hi) hb

/-- With distinct pointers an update touches exactly the object it names. -/
theorem map_update_at_split (pre post : List PhoshActivity) (a : PhoshActivity)
    (f : PhoshActivity → PhoshActivity)
    (hnd : ((pre ++ a :: post).map (fun x => x.ptr)).Nodup) :
    (pre ++ a :: post).map (update_at a.ptr f) = pre ++ f a :: post := by
  rw [List.map_append, List.map_cons, List.nodup_append] at hnd
  obtain ⟨_, hpost, hdisj⟩ := hnd
  have hpre' : ∀ x ∈ pre, x.ptr ≠ a.ptr := by
    intro x hx heq
    exact hdisj (List.mem_map_of_mem (fun x => x.ptr) hx)
      (by rw [heq]; exact List.mem_cons_self _ _)
  have hpost' : ∀ x ∈ post, x.ptr ≠ a.ptr := by
    intro x hx heq
    have := (List.nodup_cons.mp hpost).1
    exact this (by rw [← heq]; exact List.mem_map_of_mem (fun x => x.ptr) hx)
  rw [List.map_append, List.map_cons, map_update_at_fresh pre _ _ hpre',
    map_update_at_fresh post _ _ hpost']
  simp [update_at]

/-- With well-formed pointers an update of the fresh pointer after an insert
touches only the inserted object. -/
theorem map_update_at_insert_at (l : List PhoshActivity) (n : PhoshActivity) (k : Nat)
    (f : PhoshActivity → PhoshActivity) (h : ∀ a ∈ l, a.ptr < n.ptr) :
    (insert_at l n k).map (update_at n.ptr f) = insert_at l (f n) k := by
  unfold insert_at
  rw [List.map_append, List.map_cons,
    map_update_at_fresh _ _ _ (fun a ha => Nat.ne_of_lt (h a (List.mem_of_mem_take ha))),
    map_update_at_fresh _ _ _ (fun a ha => Nat.ne_of_lt (h a (List.mem_of_mem_drop ha)))]
  simp [update_at]

/-- Membership in the children after an insert. -/
theorem mem_insert_at (l : List PhoshActivity) (n x : PhoshActivity) (k : Nat) :
    x ∈ insert_at l n k ↔ x = n ∨ x ∈ l := by
  unfold insert_at
  conv_rhs => rw [← List.take_append_drop k l]
  simp only [List.mem_append, List.mem_cons]
  tauto

/-- Inserting a fresh object keeps the pointers well formed. -/
theorem nodup_ptr_insert_at (l : List PhoshActivity) (n : PhoshActivity) (k : Nat)
    (hnd : (l.map (fun a => a.ptr)).Nodup) (h : ∀ a ∈ l, a.ptr < n.ptr) :
    ((insert_at l n k).map (fun a => a.ptr)).Nodup := by
  unfold insert_at
  rw [List.map_append, List.map_cons, List.nodup_middle, ← List.map_append,
    List.take_append_drop, List.nodup_cons]
  refine ⟨?_, hnd⟩
  intro hmem
  obtain ⟨a, ha, hp⟩ := List.mem_map.mp hmem
  have := h a ha
  omega

/-- The create branch with well-formed pointers: the new activity, bound to the
toplevel, is put in at some position and nothing else changes. -/
theorem toplevel_to_activity_create_wf (shell : PhoshShell) (s : PhoshOverview)
    (w : PhoshToplevel) (hwf : ptrs_wf s) (h : reusable_activity shell s w = none) :
    ∃ k, (toplevel_to_activity shell s w).carousel_running_activities =
      insert_at s.carousel_running_activities
        (set_toplevel w.handle (phosh_activity_new shell s none (some w) w.app_id
          (resolve_parent_app_id shell w))) k := by
  obtain ⟨k, hk⟩ := create_new_activity_insert_at shell s none (some w) w.app_id
    (resolve_parent_app_id shell w)
  refine ⟨k, ?_⟩
  rw [toplevel_to_activity_carousel_create shell s w h, hk]
  exact map_update_at_insert_at s.carousel_running_activities
    (phosh_activity_new shell s none (some w) w.app_id (resolve_parent_app_id shell w)) k
    (set_toplevel w.handle) hwf.2

/-- What `reusable_activity` returns is a child without a toplevel. -/
theorem reusable_activity_some (shell : PhoshShell) (s : PhoshOverview) (w : PhoshToplevel)
    (a : PhoshActivity) (h : reusable_activity shell s w = some a) :
    a ∈ s.carousel_running_activities ∧ a.toplevel = none ∧
      find_activity_by_app_id shell s w.app_id = some a := by
  unfold reusable_activity at h
  cases hf : find_activity_by_app_id shell s w.app_id with
  | none => simp [hf] at h
  | some b =>
    simp only [hf] at h
    split_ifs at h with hb
    have hab : b = a := Option.some.inj h
    subst hab
    refine ⟨?_, ?_, rfl⟩
    · unfold find_activity_by_app_id at hf
      cases hid : w.app_id with
      | none => simp [hid] at hf
      | some n =>
        simp only [hid] at hf
        cases hl : shell.desktop_app_info_for_app_id n with
        | none => simp [hl] at hf
        | some i =>
          simp only [hl] at hf
          exact (find_activity_by_app_info_some s i b hf).1
    · cases ht : b.toplevel with
      | none => rfl
      | some t => simp [get_toplevel_from_activity, ht] at hb

/-- The reuse branch with well-formed pointers: exactly the found splash is
upgraded, in place. -/
theorem toplevel_to_activity_reuse_wf (shell : PhoshShell) (s : PhoshOverview)
    (w : PhoshToplevel) (a : PhoshActivity) (hwf : ptrs_wf s)
    (h : reusable_activity shell s w = some a) :
    ∃ pre post, s.carousel_running_activities = pre ++ a :: post ∧
      (toplevel_to_activity shell s w).carousel_running_activities =
        pre ++ upgrade_activity shell w a :: post := by
  obtain ⟨hmem, _, _⟩ := reusable_activity_some shell s w a h
  obtain ⟨pre, post, hsplit⟩ := List.append_of_mem hmem
  refine ⟨pre, post, hsplit, ?_⟩
  rw [toplevel_to_activity_carousel_reuse shell s w a h, hsplit]
  apply map_update_at_split
  rw [← hsplit]
  exact hwf.1

/-- The function `toplevel_to_activity` keeps the pointers well formed. -/
theorem toplevel_to_activity_wf (shell : PhoshShell) (s : PhoshOverview) (w : PhoshToplevel)
    (hwf : ptrs_wf s) : ptrs_wf (toplevel_to_activity shell s w) := by
  cases h : reusable_activity shell s w with
  | some a =>
    unfold ptrs_wf
    rw [toplevel_to_activity_carousel_reuse shell s w a h,
      toplevel_to_activity_next_ptr_reuse shell s w a h,
      map_ptr_update_at _ _ _ (upgrade_activity_ptr shell w)]
    refine ⟨hwf.1, ?_⟩
    intro x hx
    obtain ⟨y, hy, rfl⟩ := List.mem_map.mp hx
    rw [update_at_ptr _ _ (upgrade_activity_ptr shell w)]
    exact hwf.2 y hy
  | none =>
    obtain ⟨k, hk⟩ := toplevel_to_activity_create_wf shell s w hwf h
    unfold ptrs_wf
    rw [hk, toplevel_to_activity_next_ptr_create shell s w h]
    refine ⟨nodup_ptr_insert_at _ _ _ hwf.1 hwf.2, ?_⟩
    intro x hx
    rcases (mem_insert_at _ _ _ _).mp hx with rfl | hx
    · show s.next_ptr < s.next_ptr + 1
      omega
    · exact Nat.lt_succ_of_lt (hwf.2 x hx)

/-- The bound entries of a handle after an insert. -/
theorem filter_insert_at_length (l : List PhoshActivity) (n : PhoshActivity) (k : Nat)
    (q : PhoshActivity → Bool) :
    ((insert_at l n k).filter q).length = (l.filter q).length + (if q n then 1 else 0) := by
  unfold insert_at
  conv_rhs => rw [← List.take_append_drop k l]
  simp only [List.filter_append, List.length_append, List.filter_cons]
  split_ifs
  · simp
    omega
  · simp

/-- Binding a window adds exactly one entry bound to it and none bound to any
other window. -/
theorem bound_entries_toplevel_to_activity (shell : PhoshShell) (s : PhoshOverview)
    (w : PhoshToplevel) (hwf : ptrs_wf s) (h : Nat) :
    (bound_entries (toplevel_to_activity shell s w) h).length =
      (bound_entries s h).length + (if h = w.handle then 1 else 0) := by
  unfold bound_entries
  cases hr : reusable_activity shell s w with
  | some a =>
    obtain ⟨pre, post, hsplit, hc⟩ := toplevel_to_activity_reuse_wf shell s w a hwf hr
    obtain ⟨_, hnone, _⟩ := reusable_activity_some shell s w a hr
    rw [hc, hsplit]
    simp only [List.filter_append, List.length_append, List.filter_cons, hnone,
      upgrade_activity, set_toplevel]
    by_cases hh : h = w.handle
    · subst hh; simp
      omega
    · have hh' : ¬ (w.handle = h) := fun e => hh e.symm
      simp [hh, hh']
  | none =>
    obtain ⟨k, hk⟩ := toplevel_to_activity_create_wf shell s w hwf hr
    rw [hk, filter_insert_at_length]
    by_cases hh : h = w.handle
    · subst hh; simp [set_toplevel]
    · have hh' : ¬ (w.handle = h) := fun e => hh e.symm
      simp [set_toplevel, hh, hh']

/-! ## One entry per window (C3) -/

/-- After a sequence of added toplevels a handle has as many more bound entries
as it has events. -/
theorem bound_entries_toplevel_added_events (toplevels : List (PhoshShell × PhoshToplevel))
    (s : PhoshOverview) (hwf : ptrs_wf s) (h : Nat) :
    ptrs_wf (run s (toplevel_added_events toplevels)) ∧
    (bound_entries (run s (toplevel_added_events toplevels)) h).length =
      (bound_entries s h).length + (toplevels.map (fun p => p.2.handle)).count h := by
  induction toplevels generalizing s with
  | nil => exact ⟨hwf, by simp [run, toplevel_added_events]⟩
  | cons p rest ih =>
    have hwf1 := toplevel_to_activity_wf p.1 s p.2 hwf
    have hstep := bound_entries_toplevel_to_activity p.1 s p.2 hwf h
    obtain ⟨hwf2, hcount⟩ := ih (toplevel_to_activity p.1 s p.2) hwf1
    have hrun : run s (toplevel_added_events (p :: rest)) =
        run (toplevel_to_activity p.1 s p.2) (toplevel_added_events rest) := rfl
    rw [hrun]
    refine ⟨hwf2, ?_⟩
    rw [hcount, hstep, List.map_cons, List.count_cons]
    by_cases hh : h = p.2.handle
    · subst hh; simp; omega
    · have hh' : ¬ (p.2.handle = h) := fun e => hh e.symm
      simp [hh, hh']

/-- Claim C3, against the claim as stated: when the same window is added twice,
two entries are bound to it. -/
theorem toplevel_added_twice_two_entries :
    (run phosh_overview_init
      (toplevel_added_events [(ex_shell, ex_window 5), (ex_shell, ex_window 5)])
      ).carousel_running_activities.map (fun a => a.toplevel) = [some 5, some 5] ∧
    (bound_entries (run phosh_overview_init
      (toplevel_added_events [(ex_shell, ex_window 5), (ex_shell, ex_window 5)])) 5).length
      = 2 := by
  decide

/-- Claim C3, amended: after a sequence of toplevel-added events for pairwise
distinct windows, applied to an empty collection, every window of the sequence
has exactly one entry bound to it. -/
theorem one_entry_per_added_window (toplevels : List (PhoshShell × PhoshToplevel))
    (s : PhoshOverview) (hempty : s.carousel_running_activities = [])
    (hdistinct : (toplevels.map (fun p => p.2.handle)).Nodup)
    (p : PhoshShell × PhoshToplevel) (hp : p ∈ toplevels) :
    (bound_entries (run s (toplevel_added_events toplevels)) p.2.handle).length = 1 := by
  have hwf : ptrs_wf s := by
    unfold ptrs_wf
    rw [hempty]
    exact ⟨List.nodup_nil, fun a ha => absurd ha (List.not_mem_nil a)⟩
  rw [(bound_entries_toplevel_added_events toplevels s hwf p.2.handle).2]
  have hcount : (toplevels.map (fun p => p.2.handle)).count p.2.handle = 1 :=
    List.count_eq_one_of_mem hdistinct (List.mem_map_of_mem (fun p => p.2.handle) hp)
  rw [hcount]
  simp [bound_entries, hempty]

/-- Witness for C3 (amended): two distinct windows added to the initial overview. -/
theorem one_entry_per_added_window_witness :
    (bound_entries (run phosh_overview_init
      (toplevel_added_events [(ex_shell, ex_window 5), (ex_shell, ex_child 6 "a")])) 6).length
      = 1 :=
  one_entry_per_added_window [(ex_shell, ex_window 5), (ex_shell, ex_child 6 "a")]
    phosh_overview_init rfl (by decide) (ex_shell, ex_child 6 "a") (by simp)

/-! ## Launches (C4, C5, C6) -/

/-- With well-formed pointers a launch appends its splash and changes nothing
else. -/
theorem on_app_launch_started_carousel_wf (shell : PhoshShell) (s : PhoshOverview)
    (info : GAppInfo) (t : Option String) (hwf : ptrs_wf s) :
    (on_app_launch_started shell s info t).carousel_running_activities =
      s.carousel_running_activities ++
        [set_startup_id t (phosh_activity_new shell s (some info) none none none)] := by
  rw [on_app_launch_started_carousel, List.map_append,
    map_update_at_fresh _ _ _ (fun a ha => Nat.ne_of_lt (hwf.2 a ha))]
  simp [update_at, phosh_activity_new]

/-- A launch keeps the pointers well formed. -/
theorem on_app_launch_started_wf (shell : PhoshShell) (s : PhoshOverview)
    (info : GAppInfo) (t : Option String) (hwf : ptrs_wf s) :
    ptrs_wf (on_app_launch_started shell s info t) := by
  unfold ptrs_wf
  rw [on_app_launch_started_carousel_wf shell s info t hwf, on_app_launch_started_next_ptr]
  constructor
  · rw [List.map_append, List.nodup_append]
    refine ⟨hwf.1, List.nodup_singleton _, ?_⟩
    intro p hp hq
    obtain ⟨a, ha, rfl⟩ := List.mem_map.mp hp
    have h1 := hwf.2 a ha
    have h2 : a.ptr = s.next_ptr := by simpa [set_startup_id, phosh_activity_new] using hq
    omega
  · intro a ha
    rcases List.mem_append.mp ha with ha | ha
    · exact Nat.lt_succ_of_lt (hwf.2 a ha)
    · rw [List.mem_singleton.mp ha]
      show s.next_ptr < s.next_ptr + 1
      omega

/-- No child matches: the lookup by app info finds nothing. -/
theorem find_activity_by_app_info_none (s : PhoshOverview) (i : GAppInfo)
    (h : ∀ x ∈ s.carousel_running_activities, x.app_info ≠ some i) :
    find_activity_by_app_info s i = none := by
  unfold find_activity_by_app_info
  rw [List.find?_eq_none]
  intro x hx
  have := h x hx
  cases hinfo : x.app_info with
  | none => simp [app_info_matches, hinfo]
  | some j =>
    have hne : i ≠ j := fun e => this (by rw [hinfo, e])
    simp [app_info_matches, hinfo, hne]

/-- After a launch of an app that had no entry, the lookup by app info finds the
launch's splash. -/
theorem find_activity_by_app_info_after_launch (shell : PhoshShell) (s : PhoshOverview)
    (A : GAppInfo) (t : Option String) (hwf : ptrs_wf s)
    (hnone : ∀ x ∈ s.carousel_running_activities, x.app_info ≠ some A) :
    find_activity_by_app_info (on_app_launch_started shell s A t) A =
      some (set_startup_id t (phosh_activity_new shell s (some A) none none none)) := by
  have h0 := find_activity_by_app_info_none s A hnone
  unfold find_activity_by_app_info at h0 ⊢
  rw [on_app_launch_started_carousel_wf shell s A t hwf, List.find?_append, h0]
  simp [app_info_matches, set_startup_id, phosh_activity_new, phosh_activity_new_app_info]

/-- Claim C4, against the claim as stated: with an earlier splash of app a pending
(and no window of a), a second launch of a followed by a window of a upgrades the
earlier splash; the second launch's splash (pointer 1) keeps its startup id and
stays without a window. -/
theorem later_splash_not_upgraded :
    (∀ x ∈ ex_splash_a.carousel_running_activities,
        x.app_info = some ex_info_a → x.toplevel = none) ∧
      ex_shell.desktop_app_info_for_app_id "a" = some ex_info_a ∧
      ex_splash_a.next_ptr = 1 ∧
      (on_toplevel_added ex_shell (on_app_launch_started ex_shell ex_splash_a ex_info_a
        (some "t1")) (ex_window_of 5 "a")).carousel_running_activities.map
          (fun a => (a.ptr, a.toplevel, a.startup_id)) =
        [(0, some 5, none), (1, none, some "t1")] := by
  decide

/-- Claim C4, amended: when the state holds no entry at all for the app info `A`
(neither window-backed nor splash), a launch of `A` followed by the arrival of a
window whose app id resolves to `A` leaves exactly one more entry than before the
launch: the launch's splash, upgraded in place at the tail, bound to the window
and with its startup id cleared. -/
theorem launch_then_window_upgrades_splash (shell1 shell2 : PhoshShell) (s : PhoshOverview)
    (A : GAppInfo) (t : Option String) (w : PhoshToplevel) (app : String)
    (hwf : ptrs_wf s)
    (hnone : ∀ x ∈ s.carousel_running_activities, x.app_info ≠ some A)
    (hw : w.app_id = some app) (hres : shell2.desktop_app_info_for_app_id app = some A) :
    (on_app_launch_started shell1 s A t).carousel_running_activities =
      s.carousel_running_activities ++
        [set_startup_id t (phosh_activity_new shell1 s (some A) none none none)] ∧
    (on_toplevel_added shell2 (on_app_launch_started shell1 s A t) w).carousel_running_activities =
      s.carousel_running_activities ++
        [upgrade_activity shell2 w
          (set_startup_id t (phosh_activity_new shell1 s (some A) none none none))] ∧
    (on_toplevel_added shell2 (on_app_launch_started shell1 s A t)
      w).carousel_running_activities.length = s.carousel_running_activities.length + 1 ∧
    (upgrade_activity shell2 w
      (set_startup_id t (phosh_activity_new shell1 s (some A) none none none))).ptr =
        (set_startup_id t (phosh_activity_new shell1 s (some A) none none none)).ptr ∧
    (upgrade_activity shell2 w
      (set_startup_id t (phosh_activity_new shell1 s (some A) none none none))).toplevel =
        some w.handle ∧
    (upgrade_activity shell2 w
      (set_startup_id t (phosh_activity_new shell1 s (some A) none none none))).startup_id =
        none := by
  have hl := on_app_launch_started_carousel_wf shell1 s A t hwf
  have hwf1 := on_app_launch_started_wf shell1 s A t hwf
  have hfind := find_activity_by_app_info_after_launch shell1 s A t hwf hnone
  have hr : reusable_activity shell2 (on_app_launch_started shell1 s A t) w =
      some (set_startup_id t (phosh_activity_new shell1 s (some A) none none none)) := by
    unfold reusable_activity find_activity_by_app_id
    rw [hw]
    simp only [hres, hfind]
    simp [get_toplevel_from_activity, set_startup_id, phosh_activity_new]
  have hc : (on_toplevel_added shell2 (on_app_launch_started shell1 s A t)
      w).carousel_running_activities = s.carousel_running_activities ++
        [upgrade_activity shell2 w
          (set_startup_id t (phosh_activity_new shell1 s (some A) none none none))] := by
    unfold on_toplevel_added
    rw [toplevel_to_activity_carousel_reuse shell2 _ w _ hr, hl]
    have := map_update_at_split s.carousel_running_activities []
      (set_startup_id t (phosh_activity_new shell1 s (some A) none none none))
      (upgrade_activity shell2 w) (by rw [← hl]; exact hwf1.1)
    exact this
  refine ⟨hl, hc, ?_, rfl, rfl, rfl⟩
  rw [hc]
  simp

/-- Witness for C4 (amended): a launch of app a on the initial overview, then a
window of app a. -/
theorem launch_then_window_upgrades_splash_witness :
    (on_toplevel_added ex_shell (on_app_launch_started ex_shell phosh_overview_init ex_info_a
      (some "t0")) (ex_window_of 5 "a")).carousel_running_activities.map
        (fun a => (a.ptr, a.toplevel, a.startup_id)) = [(0, some 5, none)] := by
  have h := (launch_then_window_upgrades_splash ex_shell ex_shell phosh_overview_init ex_info_a
    (some "t0") (ex_window_of 5 "a") "a" (by decide) (by decide) rfl rfl).2.1
  rw [h]
  rfl

/-- Destroying the only object at a fresh pointer restores the children. -/
theorem filter_ptr_append_fresh (l : List PhoshActivity) (n : PhoshActivity)
    (h : ∀ a ∈ l, a.ptr < n.ptr) :
    (l ++ [n]).filter (fun a => a.ptr ≠ n.ptr) = l := by
  rw [List.filter_append]
  have h1 : l.filter (fun a => a.ptr ≠ n.ptr) = l := by
    rw [List.filter_eq_self]
    intro a ha
    simpa using Nat.ne_of_lt (h a ha)
  rw [h1]
  simp

/-- Claim C5, against the claim as stated: with app a already running in a window, a
launch of a followed by its failure leaves the launch's splash in place: the
lookup finds the running window's entry first and the failure is ignored. -/
theorem failed_launch_of_running_app_keeps_splash :
    ex_running_a.carousel_running_activities.map (fun a => (a.ptr, a.toplevel, a.startup_id)) =
        [(0, some 5, none)] ∧
      (on_app_failed (on_app_launch_started ex_shell ex_running_a ex_info_a (some "t1"))
        ex_info_a (some "t1")).carousel_running_activities.map
          (fun a => (a.ptr, a.toplevel, a.startup_id)) =
        [(0, some 5, none), (1, none, some "t1")] ∧
      (on_app_failed (on_app_launch_started ex_shell ex_running_a ex_info_a (some "t1"))
        ex_info_a (some "t1")).carousel_running_activities.length ≠
        ex_running_a.carousel_running_activities.length := by
  decide

/-- Claim C5, amended: when the state holds no entry for the app info `A`, a launch
of `A` followed by its failure, with nothing in between, removes the splash the
launch created: the collection has the same entries in the same order (hence the
same count) as before the launch. -/
theorem launch_then_failure_restores (shell : PhoshShell) (s : PhoshOverview)
    (A : GAppInfo) (t t2 : Option String) (hwf : ptrs_wf s)
    (hnone : ∀ x ∈ s.carousel_running_activities, x.app_info ≠ some A) :
    (on_app_launch_started shell s A t).carousel_running_activities =
      s.carousel_running_activities ++
        [set_startup_id t (phosh_activity_new shell s (some A) none none none)] ∧
    (on_app_failed (on_app_launch_started shell s A t) A t2).carousel_running_activities =
      s.carousel_running_activities ∧
    (on_app_failed (on_app_launch_started shell s A t) A t2).carousel_running_activities.length =
      s.carousel_running_activities.length := by
  have hl := on_app_launch_started_carousel_wf shell s A t hwf
  have hfind := find_activity_by_app_info_after_launch shell s A t hwf hnone
  have hc : (on_app_failed (on_app_launch_started shell s A t) A t2).carousel_running_activities =
      s.carousel_running_activities := by
    unfold on_app_failed
    simp only [hfind]
    have ht : (get_toplevel_from_activity
        (some (set_startup_id t (phosh_activity_new shell s (some A) none none none)))).isSome
          = false := rfl
    rw [ht]
    simp only [Bool.false_eq_true, if_false, gtk_widget_destroy_carousel, hl]
    exact filter_ptr_append_fresh s.carousel_running_activities
      (set_startup_id t (phosh_activity_new shell s (some A) none none none)) hwf.2
  exact ⟨hl, hc, by rw [hc]⟩

/-- Witness for C5 (amended): app a is launched and fails while only a window of
another app is open. -/
theorem launch_then_failure_restores_witness :
    (on_app_failed (on_app_launch_started ex_shell
      (ex_overview [ex_window_activity 0 "b" 9] 1) ex_info_a (some "t")) ex_info_a
        (some "t")).carousel_running_activities = [ex_window_activity 0 "b" 9] :=
  (launch_then_failure_restores ex_shell (ex_overview [ex_window_activity 0 "b" 9] 1)
    ex_info_a (some "t") (some "t") (by decide) (by decide)).2.1

/-- A failure is ignored when the child it finds, if any, has a toplevel. -/
theorem on_app_failed_eq_self (s : PhoshOverview) (i : GAppInfo) (t : Option String)
    (h : ∀ x, find_activity_by_app_info s i = some x → x.toplevel ≠ none) :
    on_app_failed s i t = s := by
  unfold on_app_failed
  cases hf : find_activity_by_app_info s i with
  | none => simp [get_toplevel_from_activity]
  | some a =>
    have := h a hf
    cases ht : a.toplevel with
    | none => exact absurd ht this
    | some x => simp [get_toplevel_from_activity, ht]

/-- The lookup after an insert finds the inserted child or what it found before. -/
theorem find?_insert_at (p : PhoshActivity → Bool) (l : List PhoshActivity)
    (n x : PhoshActivity) (k : Nat) (h : (insert_at l n k).find? p = some x) :
    x = n ∨ l.find? p = some x := by
  unfold insert_at at h
  have hl : l.find? p = ((l.take k).find? p).or ((l.drop k).find? p) := by
    conv_lhs => rw [← List.take_append_drop k l]
    rw [List.find?_append]
  rw [List.find?_append, List.find?_cons] at h
  rw [hl]
  cases ht : (l.take k).find? p with
  | some y => rw [ht] at h; right; simpa using h
  | none =>
    rw [ht] at h
    simp only [Option.none_or] at h ⊢
    cases hp : p n with
    | true => rw [hp] at h; left; exact (Option.some.inj h).symm
    | false => rw [hp] at h; right; exact h

/-- The window bound by `toplevel_to_activity` has an entry afterwards. -/
theorem toplevel_to_activity_bound (shell : PhoshShell) (s : PhoshOverview)
    (w : PhoshToplevel) :
    ∃ e ∈ (toplevel_to_activity shell s w).carousel_running_activities,
      e.toplevel = some w.handle := by
  cases hr : reusable_activity shell s w with
  | some a =>
    obtain ⟨hmem, _, _⟩ := reusable_activity_some shell s w a hr
    refine ⟨upgrade_activity shell w a, ?_, rfl⟩
    rw [toplevel_to_activity_carousel_reuse shell s w a hr]
    have : update_at a.ptr (upgrade_activity shell w) a = upgrade_activity shell w a := by
      simp [update_at]
    rw [← this]
    exact List.mem_map_of_mem _ hmem
  | none =>
    obtain ⟨k, hk⟩ := create_new_activity_insert_at shell s none (some w) w.app_id
      (resolve_parent_app_id shell w)
    refine ⟨set_toplevel w.handle (phosh_activity_new shell s none (some w) w.app_id
      (resolve_parent_app_id shell w)), ?_, rfl⟩
    rw [toplevel_to_activity_carousel_create shell s w hr, hk]
    have : update_at s.next_ptr (set_toplevel w.handle)
        (phosh_activity_new shell s none (some w) w.app_id (resolve_parent_app_id shell w)) =
        set_toplevel w.handle (phosh_activity_new shell s none (some w) w.app_id
          (resolve_parent_app_id shell w)) := by
      simp [update_at, phosh_activity_new]
    rw [← this]
    exact List.mem_map_of_mem _ ((mem_insert_at _ _ _ _).mpr (Or.inl rfl))

@[simp] theorem update_at_upgrade_activity_app_info (p : Nat) (shell : PhoshShell)
    (w : PhoshToplevel) (a : PhoshActivity) :
    (update_at p (upgrade_activity shell w) a).app_info = a.app_info := by
  unfold update_at; split_ifs <;> rfl

/-- The lookup by app info commutes with an update that keeps the app infos. -/
theorem find_activity_by_app_info_map (l : List PhoshActivity) (i : GAppInfo)
    (u : PhoshActivity → PhoshActivity) (hu : ∀ a, (u a).app_info = a.app_info) :
    (l.map u).find? (app_info_matches i) = (l.find? (app_info_matches i)).map u := by
  rw [List.find?_map]
  congr 2
  funext a
  simp [Function.comp, app_info_matches, hu]

/-- When no child is reusable for a window, the child found for the window's app
info, if any, has a toplevel. -/
theorem reusable_activity_none_backed (shell : PhoshShell) (s : PhoshOverview)
    (w : PhoshToplevel) (app : String) (A : GAppInfo) (hw : w.app_id = some app)
    (hres : shell.desktop_app_info_for_app_id app = some A)
    (hr : reusable_activity shell s w = none) (y : PhoshActivity)
    (hy : find_activity_by_app_info s A = some y) : y.toplevel ≠ none := by
  unfold reusable_activity find_activity_by_app_id at hr
  rw [hw] at hr
  simp only [hres, hy] at hr
  intro hnone
  simp [get_toplevel_from_activity, hnone] at hr

/-- After a window of app `A` was bound, the child found for `A` has a toplevel. -/
theorem find_after_toplevel_to_activity_backed (shell : PhoshShell) (s : PhoshOverview)
    (w : PhoshToplevel) (app : String) (A : GAppInfo) (hw : w.app_id = some app)
    (hres : shell.desktop_app_info_for_app_id app = some A) (x : PhoshActivity)
    (hx : find_activity_by_app_info (toplevel_to_activity shell s w) A = some x) :
    x.toplevel ≠ none := by
  unfold find_activity_by_app_info at hx
  cases hr : reusable_activity shell s w with
  | some a =>
    obtain ⟨_, _, hfind⟩ := reusable_activity_some shell s w a hr
    unfold find_activity_by_app_id at hfind
    rw [hw] at hfind
    simp only [hres] at hfind
    unfold find_activity_by_app_info at hfind
    rw [toplevel_to_activity_carousel_reuse shell s w a hr,
      find_activity_by_app_info_map _ _ _ (update_at_upgrade_activity_app_info a.ptr shell w),
      hfind] at hx
    have hxa : x = upgrade_activity shell w a := by
      simpa [update_at] using hx.symm
    rw [hxa]
    simp [upgrade_activity, set_toplevel]
  | none =>
    obtain ⟨k, hk⟩ := create_new_activity_insert_at shell s none (some w) w.app_id
      (resolve_parent_app_id shell w)
    rw [toplevel_to_activity_carousel_create shell s w hr, hk,
      find_activity_by_app_info_map _ _ _ (update_at_set_toplevel_app_info s.next_ptr w.handle)]
      at hx
    obtain ⟨y, hy, rfl⟩ := Option.map_eq_some'.mp hx
    rcases find?_insert_at _ _ _ _ _ hy with rfl | hy
    · simp [update_at, phosh_activity_new, set_toplevel]
    · exact update_at_set_toplevel_ne_none _ _ _
        (reusable_activity_none_backed shell s w app A hw hres hr y hy)

/-- Claim C6: after a launch of `A` and the arrival of a window `W` whose app id
resolves to `A`, a failure of the launch is ignored: it changes nothing, and an
entry bound to `W` is in the collection afterwards. -/
theorem failure_after_window_ignored (shell1 shell2 : PhoshShell) (s : PhoshOverview)
    (A : GAppInfo) (t t2 : Option String) (w : PhoshToplevel) (app : String)
    (hw : w.app_id = some app) (hres : shell2.desktop_app_info_for_app_id app = some A) :
    on_app_failed (on_toplevel_added shell2 (on_app_launch_started shell1 s A t) w) A t2 =
      on_toplevel_added shell2 (on_app_launch_started shell1 s A t) w ∧
    ∃ e ∈ (on_app_failed (on_toplevel_added shell2 (on_app_launch_started shell1 s A t) w)
        A t2).carousel_running_activities, e.toplevel = some w.handle := by
  have h1 : on_app_failed (on_toplevel_added shell2 (on_app_launch_started shell1 s A t) w)
      A t2 = on_toplevel_added shell2 (on_app_launch_started shell1 s A t) w :=
    on_app_failed_eq_self _ A t2
      (find_after_toplevel_to_activity_backed shell2 _ w app A hw hres)
  refine ⟨h1, ?_⟩
  rw [h1]
  exact toplevel_to_activity_bound shell2 _ w

/-- Witness for C6: app a is launched while one of its windows is open, a second
window of a arrives, and the launch is reported failed. -/
theorem failure_after_window_ignored_witness :
    (on_app_failed (on_toplevel_added ex_shell (on_app_launch_started ex_shell ex_running_a
      ex_info_a (some "t1")) (ex_window_of 6 "a")) ex_info_a
        (some "t1")).carousel_running_activities.map (fun a => (a.ptr, a.toplevel)) =
      [(0, some 5), (1, none), (2, some 6)] := by
  rw [(failure_after_window_ignored ex_shell ex_shell ex_running_a ex_info_a (some "t1")
    (some "t1") (ex_window_of 6 "a") "a" rfl rfl).1]
  decide

/-! ## Closing and activating windows (C7, C9) -/

/-- The lookup by toplevel finds the first child bound to the window. -/
theorem find_activity_by_toplevel_first (s : PhoshOverview) (h : Nat)
    (pre post : List PhoshActivity) (e : PhoshActivity)
    (hs : s.carousel_running_activities = pre ++ e :: post) (he : e.toplevel = some h)
    (hpre : ∀ x ∈ pre, x.toplevel ≠ some h) :
    find_activity_by_toplevel s h = some e := by
  unfold find_activity_by_toplevel
  rw [hs, List.find?_append]
  have hnone : pre.find? (toplevel_matches h) = none := by
    rw [List.find?_eq_none]
    intro x hx
    have := hpre x hx
    cases ht : x.toplevel with
    | none => simp [toplevel_matches, get_toplevel_from_activity, ht]
    | some t =>
      have hne : t ≠ h := fun e => this (by rw [ht, e])
      simp [toplevel_matches, get_toplevel_from_activity, ht, hne]
  rw [hnone]
  simp [toplevel_matches, get_toplevel_from_activity, he]

/-- With distinct pointers, destroying a child removes exactly that child. -/
theorem filter_ptr_split (pre post : List PhoshActivity) (e : PhoshActivity)
    (hnd : ((pre ++ e :: post).map (fun x => x.ptr)).Nodup) :
    (pre ++ e :: post).filter (fun a => a.ptr ≠ e.ptr) = pre ++ post := by
  rw [List.map_append, List.map_cons, List.nodup_append] at hnd
  obtain ⟨_, hpost, hdisj⟩ := hnd
  have hpre' : pre.filter (fun a => a.ptr ≠ e.ptr) = pre := by
    rw [List.filter_eq_self]
    intro x hx
    have : x.ptr ≠ e.ptr := fun heq =>
      hdisj (List.mem_map_of_mem (fun x => x.ptr) hx) (by rw [heq]; exact List.mem_cons_self _ _)
    simpa using this
  have hpost' : post.filter (fun a => a.ptr ≠ e.ptr) = post := by
    rw [List.filter_eq_self]
    intro x hx
    have : x.ptr ≠ e.ptr := fun heq =>
      (List.nodup_cons.mp hpost).1 (by rw [← heq]; exact List.mem_map_of_mem (fun x => x.ptr) hx)
    simpa using this
  rw [List.filter_append, List.filter_cons, hpre', hpost']
  simp

/-- After `set_has_activities` the stored value agrees with the carousel. -/
theorem set_has_activities_in_sync (s : PhoshOverview) :
    has_activities_in_sync (set_has_activities s) := by
  unfold has_activities_in_sync set_has_activities
  dsimp only
  split_ifs <;> simp_all

/-- The function `set_has_activities` notifies exactly when the stored value changes. -/
theorem set_has_activities_notifications (s : PhoshOverview) :
    (set_has_activities s).notifications =
      if s.has_activities = (if s.carousel_running_activities.length ≠ 0 then 1 else 0)
      then s.notifications else s.notifications + 1 := by
  unfold set_has_activities
  dsimp only
  split_ifs <;> rfl

theorem carousel_set_children_in_sync (s : PhoshOverview) (l : List PhoshActivity) :
    has_activities_in_sync (carousel_set_children s l) :=
  set_has_activities_in_sync _

theorem apply_op_in_sync (s : PhoshOverview) (op : CarouselOp) :
    has_activities_in_sync (apply_op s op) := by
  cases op <;> exact carousel_set_children_in_sync _ _

/-- The notifications after a change of the children, from a state in sync. -/
theorem carousel_set_children_notifications (s : PhoshOverview) (l : List PhoshActivity)
    (hs : has_activities_in_sync s) :
    (carousel_set_children s l).notifications =
      if (s.carousel_running_activities = [] ↔ l = []) then s.notifications
      else s.notifications + 1 := by
  unfold carousel_set_children on_n_pages_changed
  rw [set_has_activities_notifications]
  unfold has_activities_in_sync at hs
  dsimp only
  rw [hs]
  cases hl : l <;> cases hc : s.carousel_running_activities <;> simp

theorem update_activity_in_sync (s : PhoshOverview) (p : Nat)
    (f : PhoshActivity → PhoshActivity) (hs : has_activities_in_sync s) :
    has_activities_in_sync (update_activity s p f) := by
  unfold has_activities_in_sync at hs ⊢
  simpa [update_activity] using hs

theorem create_new_activity_in_sync (shell : PhoshShell) (s : PhoshOverview)
    (info : Option GAppInfo) (toplevel : Option PhoshToplevel) (app_id parent : Option String) :
    has_activities_in_sync (create_new_activity shell s info toplevel app_id parent).1 := by
  unfold create_new_activity
  dsimp only
  split_ifs <;> exact carousel_set_children_in_sync _ _

/-- Binding a window keeps the stored value in sync. -/
theorem toplevel_to_activity_in_sync (shell : PhoshShell) (s : PhoshOverview)
    (w : PhoshToplevel) (hs : has_activities_in_sync s) :
    has_activities_in_sync (toplevel_to_activity shell s w) := by
  have key : ∀ r : PhoshOverview × Nat, has_activities_in_sync r.1 →
      has_activities_in_sync
        (if w.activated then
          { scroll_to_activity (update_activity r.1 r.2 (set_toplevel w.handle)) r.2 with
            activity := some r.2 }
        else update_activity r.1 r.2 (set_toplevel w.handle)) := by
    intro r hr
    have := update_activity_in_sync r.1 r.2 (set_toplevel w.handle) hr
    split_ifs
    · exact this
    · exact this
  unfold toplevel_to_activity
  apply key
  cases hr : reusable_activity shell s w with
  | some a =>
    exact update_activity_in_sync _ _ _ (update_activity_in_sync _ _ _ hs)
  | none => exact create_new_activity_in_sync _ _ _ _ _ _

/-- A freshly constructed overview has its stored value in sync. -/
theorem fresh_overview_in_sync (shell : PhoshShell) (toplevels : List PhoshToplevel) :
    has_activities_in_sync (fresh_overview shell toplevels) := by
  unfold fresh_overview phosh_overview_constructed get_running_activities
  generalize hs0 : set_has_activities phosh_overview_init = s0
  have h0 : has_activities_in_sync s0 := hs0 ▸ set_has_activities_in_sync _
  clear hs0
  induction toplevels generalizing s0 with
  | nil => exact h0
  | cons w rest ih => exact ih _ (toplevel_to_activity_in_sync shell s0 w h0)

theorem run_ops_in_sync (s : PhoshOverview) (ops : List CarouselOp)
    (hs : has_activities_in_sync s) : has_activities_in_sync (run_ops s ops) := by
  induction ops generalizing s with
  | nil => exact hs
  | cons op rest ih => exact ih _ (apply_op_in_sync s op)

/-- The children after a change of the carousel. -/
theorem apply_op_notifications (s : PhoshOverview) (op : CarouselOp)
    (hs : has_activities_in_sync s) :
    (apply_op s op).notifications =
      if (s.carousel_running_activities = [] ↔ (apply_op s op).carousel_running_activities = [])
      then s.notifications else s.notifications + 1 := by
  cases op with
  | insert a k =>
    simp only [apply_op, hdy_carousel_insert, carousel_set_children_carousel]
    exact carousel_set_children_notifications s _ hs
  | add a =>
    simp only [apply_op, gtk_container_add, carousel_set_children_carousel]
    exact carousel_set_children_notifications s _ hs
  | destroy p =>
    simp only [apply_op, gtk_widget_destroy, carousel_set_children_carousel]
    exact carousel_set_children_notifications s _ hs

/-- With the stored value in sync, binding a window notifies exactly when the
carousel was empty before. -/
theorem toplevel_to_activity_notifications (shell : PhoshShell) (s : PhoshOverview)
    (w : PhoshToplevel) (hs : has_activities_in_sync s) :
    (toplevel_to_activity shell s w).notifications =
      if s.carousel_running_activities = [] then s.notifications + 1 else s.notifications := by
  cases hr : reusable_activity shell s w with
  | some a =>
    have hmem := (reusable_activity_some shell s w a hr).1
    have hne : s.carousel_running_activities ≠ [] := List.ne_nil_of_mem hmem
    rw [if_neg hne]
    unfold toplevel_to_activity
    simp only [hr]
    split_ifs <;> rfl
  | none =>
    have hcreate : (create_new_activity shell s none (some w) w.app_id
        (resolve_parent_app_id shell w)).1.notifications =
        if s.carousel_running_activities = [] then s.notifications + 1 else s.notifications := by
      unfold create_new_activity
      dsimp only
      have hs1 : has_activities_in_sync { s with next_ptr := s.next_ptr + 1 } := hs
      split_ifs with hp hc hc
      · unfold hdy_carousel_insert
        rw [carousel_set_children_notifications _ _ hs1]
        simp [hc, insert_at]
      · unfold hdy_carousel_insert
        rw [carousel_set_children_notifications _ _ hs1]
        simp [hc, insert_at]
      · unfold gtk_container_add
        rw [carousel_set_children_notifications _ _ hs1]
        simp [hc]
      · unfold gtk_container_add
        rw [carousel_set_children_notifications _ _ hs1]
        simp [hc]
    rw [← hcreate]
    unfold toplevel_to_activity
    simp only [hr]
    split_ifs <;> rfl

/-- After a window was bound the carousel has a child. -/
theorem toplevel_to_activity_ne_nil (shell : PhoshShell) (s : PhoshOverview)
    (w : PhoshToplevel) :
    (toplevel_to_activity shell s w).carousel_running_activities ≠ [] := by
  cases hr : reusable_activity shell s w with
  | some a =>
    rw [toplevel_to_activity_carousel_reuse shell s w a hr]
    have hmem := (reusable_activity_some shell s w a hr).1
    intro h
    rw [List.map_eq_nil_iff] at h
    exact List.ne_nil_of_mem hmem h
  | none =>
    rw [toplevel_to_activity_carousel_create shell s w hr, create_new_activity_carousel]
    intro h
    rw [List.map_eq_nil_iff] at h
    split_ifs at h
    · simp [insert_at] at h
    · simp at h

/-- The windows open at construction: once one is bound, the rest keep the
carousel filled and notify nothing. -/
theorem foldl_toplevel_to_activity_filled (shell : PhoshShell) (s : PhoshOverview)
    (toplevels : List PhoshToplevel) (hs : has_activities_in_sync s)
    (hne : s.carousel_running_activities ≠ []) :
    (toplevels.foldl (toplevel_to_activity shell) s).carousel_running_activities ≠ [] ∧
      (toplevels.foldl (toplevel_to_activity shell) s).notifications = s.notifications := by
  induction toplevels generalizing s with
  | nil => exact ⟨hne, rfl⟩
  | cons w rest ih =>
    have h := ih (toplevel_to_activity shell s w) (toplevel_to_activity_in_sync shell s w hs)
      (toplevel_to_activity_ne_nil shell s w)
    rw [toplevel_to_activity_notifications shell s w hs, if_neg hne] at h
    exact h

/-- A constructed overview has children exactly when a window was open, and has
notified once for the construction call and once more for the first window. -/
theorem fresh_overview_notifications (shell : PhoshShell) (toplevels : List PhoshToplevel) :
    ((fresh_overview shell toplevels).carousel_running_activities = [] ↔ toplevels = []) ∧
      (fresh_overview shell toplevels).notifications = if toplevels = [] then 1 else 2 := by
  unfold fresh_overview phosh_overview_constructed get_running_activities
  cases toplevels with
  | nil => exact ⟨by simp [phosh_overview_init, set_has_activities], by
      simp [phosh_overview_init, set_has_activities]⟩
  | cons w rest =>
    have hs0 : has_activities_in_sync (set_has_activities phosh_overview_init) :=
      set_has_activities_in_sync _
    have h := foldl_toplevel_to_activity_filled shell
      (toplevel_to_activity shell (set_has_activities phosh_overview_init) w) rest
      (toplevel_to_activity_in_sync shell _ w hs0) (toplevel_to_activity_ne_nil shell _ w)
    rw [toplevel_to_activity_notifications shell _ w hs0] at h
    refine ⟨by simpa using h.1, ?_⟩
    rw [List.foldl_cons, h.2]
    simp only [reduceCtorEq, if_false]
    rfl

/-- Destroying a child keeps the pointers well formed. -/
theorem gtk_widget_destroy_wf (s : PhoshOverview) (p : Nat) (hwf : ptrs_wf s) :
    ptrs_wf (gtk_widget_destroy s p) := by
  unfold ptrs_wf
  rw [gtk_widget_destroy_carousel, gtk_widget_destroy_next_ptr]
  exact ⟨hwf.1.sublist ((List.filter_sublist _).map _),
    fun a ha => hwf.2 a (List.mem_of_mem_filter ha)⟩

/-- Destroying a child leaves only children that were there. -/
theorem gtk_widget_destroy_mem (s : PhoshOverview) (p : Nat) (a : PhoshActivity)
    (ha : a ∈ (gtk_widget_destroy s p).carousel_running_activities) :
    a ∈ s.carousel_running_activities := by
  rw [gtk_widget_destroy_carousel] at ha
  exact List.mem_of_mem_filter ha

theorem on_app_failed_wf (s : PhoshOverview) (i : GAppInfo) (t : Option String)
    (hwf : ptrs_wf s) : ptrs_wf (on_app_failed s i t) := by
  unfold on_app_failed
  dsimp only
  split_ifs
  · exact hwf
  · cases find_activity_by_app_info s i with
    | none => exact hwf
    | some a => exact gtk_widget_destroy_wf s a.ptr hwf

theorem on_app_failed_mem (s : PhoshOverview) (i : GAppInfo) (t : Option String)
    (a : PhoshActivity) (ha : a ∈ (on_app_failed s i t).carousel_running_activities) :
    a ∈ s.carousel_running_activities := by
  unfold on_app_failed at ha
  dsimp only at ha
  split_ifs at ha
  · exact ha
  · cases hf : find_activity_by_app_info s i with
    | none => rw [hf] at ha; exact ha
    | some b => rw [hf] at ha; exact gtk_widget_destroy_mem s b.ptr a ha

theorem on_toplevel_closed_wf (s : PhoshOverview) (w : PhoshToplevel) (hwf : ptrs_wf s) :
    ptrs_wf (on_toplevel_closed s w) := by
  unfold on_toplevel_closed
  cases find_activity_by_toplevel s w.handle with
  | none => exact hwf
  | some a =>
    dsimp only
    split_ifs
    · exact gtk_widget_destroy_wf s a.ptr hwf
    · exact gtk_widget_destroy_wf s a.ptr hwf

theorem on_toplevel_closed_mem (s : PhoshOverview) (w : PhoshToplevel) (a : PhoshActivity)
    (ha : a ∈ (on_toplevel_closed s w).carousel_running_activities) :
    a ∈ s.carousel_running_activities := by
  unfold on_toplevel_closed at ha
  cases hf : find_activity_by_toplevel s w.handle with
  | none => rw [hf] at ha; exact ha
  | some b =>
    rw [hf] at ha
    dsimp only at ha
    split_ifs at ha
    · exact gtk_widget_destroy_mem s b.ptr a ha
    · exact gtk_widget_destroy_mem s b.ptr a ha

theorem on_toplevel_activated_changed_carousel (s : PhoshOverview) (w : PhoshToplevel) :
    (on_toplevel_activated_changed s w).carousel_running_activities =
      s.carousel_running_activities ∧
    (on_toplevel_activated_changed s w).next_ptr = s.next_ptr := by
  unfold on_toplevel_activated_changed
  split_ifs
  · cases find_activity_by_toplevel s w.handle <;> exact ⟨rfl, rfl⟩
  · exact ⟨rfl, rfl⟩

/-- Every handler keeps the pointers well formed. -/
theorem dispatch_wf (s : PhoshOverview) (ev : Event) (hwf : ptrs_wf s) :
    ptrs_wf (dispatch s ev) := by
  cases ev with
  | app_launch_started shell info t => exact on_app_launch_started_wf shell s info t hwf
  | app_ready info t => exact hwf
  | app_failed info t => exact on_app_failed_wf s info t hwf
  | toplevel_added shell w => exact toplevel_to_activity_wf shell s w hwf
  | toplevel_closed w => exact on_toplevel_closed_wf s w hwf
  | toplevel_activated_changed w =>
    obtain ⟨hc, hn⟩ := on_toplevel_activated_changed_carousel s w
    unfold ptrs_wf dispatch
    rw [hc, hn]
    exact hwf

/-- Every handler keeps bound entries free of a startup id. -/
theorem dispatch_bound_without_startup_id (s : PhoshOverview) (ev : Event) (hwf : ptrs_wf s)
    (hinv : bound_without_startup_id s) : bound_without_startup_id (dispatch s ev) := by
  unfold bound_without_startup_id at hinv ⊢
  cases ev with
  | app_launch_started shell info t =>
    intro a ha hb
    unfold dispatch at ha
    rw [on_app_launch_started_carousel_wf shell s info t hwf] at ha
    rcases List.mem_append.mp ha with ha | ha
    · exact hinv a ha hb
    · rw [List.mem_singleton.mp ha] at hb
      exact absurd rfl hb
  | app_ready info t => exact hinv
  | app_failed info t =>
    intro a ha hb
    exact hinv a (on_app_failed_mem s info t a ha) hb
  | toplevel_added shell w =>
    intro a ha hb
    unfold dispatch on_toplevel_added at ha
    cases hr : reusable_activity shell s w with
    | some b =>
      obtain ⟨pre, post, hsplit, hc⟩ := toplevel_to_activity_reuse_wf shell s w b hwf hr
      rw [hc] at ha
      rcases List.mem_append.mp ha with ha | ha
      · exact hinv a (by rw [hsplit]; exact List.mem_append_left _ ha) hb
      · rcases List.mem_cons.mp ha with ha | ha
        · rw [ha]; rfl
        · exact hinv a (by
            rw [hsplit]
            exact List.mem_append_right _ (List.mem_cons_of_mem _ ha)) hb
    | none =>
      obtain ⟨k, hk⟩ := toplevel_to_activity_create_wf shell s w hwf hr
      rw [hk] at ha
      rcases (mem_insert_at _ _ _ _).mp ha with ha | ha
      · rw [ha]; rfl
      · exact hinv a ha hb
  | toplevel_closed w =>
    intro a ha hb
    exact hinv a (on_toplevel_closed_mem s w a ha) hb
  | toplevel_activated_changed w =>
    intro a ha hb
    unfold dispatch at ha
    rw [(on_toplevel_activated_changed_carousel s w).1] at ha
    exact hinv a ha hb

/-- Both invariants hold along every run. -/
theorem run_invariants (events : List Event) (s : PhoshOverview) (hwf : ptrs_wf s)
    (hinv : bound_without_startup_id s) :
    ptrs_wf (run s events) ∧ bound_without_startup_id (run s events) := by
  induction events generalizing s with
  | nil => exact ⟨hwf, hinv⟩
  | cons ev rest ih =>
    exact ih (dispatch s ev) (dispatch_wf s ev hwf)
      (dispatch_bound_without_startup_id s ev hwf hinv)

/-- Claim C10: in every state reached from an empty collection through the
handlers (launch started, ready and failed, toplevel added and closed,
activation changes), every entry that has a bound window has no startup id. -/
theorem reachable_bound_without_startup_id (s : PhoshOverview)
    (hempty : s.carousel_running_activities = []) (events : List Event) :
    ∀ a ∈ (run s events).carousel_running_activities, a.toplevel ≠ none → a.startup_id = none := by
  have hwf : ptrs_wf s := by
    unfold ptrs_wf
    rw [hempty]
    exact ⟨List.nodup_nil, fun a ha => absurd ha (List.not_mem_nil a)⟩
  have hinv : bound_without_startup_id s := by
    unfold bound_without_startup_id
    rw [hempty]
    exact fun a ha => absurd ha (List.not_mem_nil a)
  exact (run_invariants events s hwf hinv).2

/-- Witness for C10: two launches of app a, a window of a and a failure, from the
initial overview; the entry bound to window 5 has no startup id. -/
theorem reachable_bound_without_startup_id_witness :
    (run phosh_overview_init
      [Event.app_launch_started ex_shell ex_info_a (some "t0"),
       Event.app_launch_started ex_shell ex_info_a (some "t1"),
       Event.toplevel_added ex_shell (ex_window_of 5 "a"),
       Event.app_failed ex_info_a (some "t1")]).carousel_running_activities.map
        (fun a => (a.toplevel, a.startup_id)) = [(some 5, none), (none, some "t1")] ∧
    ∀ a ∈ (run phosh_overview_init
      [Event.app_launch_started ex_shell ex_info_a (some "t0"),
       Event.app_launch_started ex_shell ex_info_a (some "t1"),
       Event.toplevel_added ex_shell (ex_window_of 5 "a"),
       Event.app_failed ex_info_a (some "t1")]).carousel_running_activities,
      a.toplevel ≠ none → a.startup_id = none :=
  ⟨by decide, reachable_bound_without_startup_id phosh_overview_init rfl _⟩

/-! ## A second window of an app (C11) -/

/-- The entry found for an app id that already has a toplevel is not reusable. -/
theorem reusable_activity_none_of_found_backed (shell : PhoshShell) (s : PhoshOverview)
    (w : PhoshToplevel) (a : PhoshActivity) (h : Nat)
    (hfind : find_activity_by_app_id shell s w.app_id = some a) (ha : a.toplevel = some h) :
    reusable_activity shell s w = none := by
  unfold reusable_activity
  rw [hfind]
  simp [get_toplevel_from_activity, ha]

/-- Claim C11: when the entry found for the new window's app id already has a
toplevel, `toplevel_to_activity` does not reuse it: the children are the old
ones, unchanged and in their order, with one new entry put in that is bound to
the new window; the found entry is still there, bound to its own window. -/
theorem second_window_gets_new_entry (shell : PhoshShell) (s : PhoshOverview)
    (w : PhoshToplevel) (a : PhoshActivity) (h : Nat) (hwf : ptrs_wf s)
    (hfind : find_activity_by_app_id shell s w.app_id = some a) (ha : a.toplevel = some h) :
    (∃ k, (on_toplevel_added shell s w).carousel_running_activities =
      insert_at s.carousel_running_activities
        (set_toplevel w.handle (phosh_activity_new shell s none (some w) w.app_id
          (resolve_parent_app_id shell w))) k) ∧
    (on_toplevel_added shell s w).carousel_running_activities.length =
      s.carousel_running_activities.length + 1 ∧
    (set_toplevel w.handle (phosh_activity_new shell s none (some w) w.app_id
      (resolve_parent_app_id shell w))).toplevel = some w.handle ∧
    (set_toplevel w.handle (phosh_activity_new shell s none (some w) w.app_id
      (resolve_parent_app_id shell w))).ptr ≠ a.ptr ∧
    a ∈ (on_toplevel_added shell s w).carousel_running_activities ∧
    (∀ x ∈ s.carousel_running_activities,
      x ∈ (on_toplevel_added shell s w).carousel_running_activities) := by
  have hr := reusable_activity_none_of_found_backed shell s w a h hfind ha
  obtain ⟨k, hk⟩ := toplevel_to_activity_create_wf shell s w hwf hr
  have hmem : a ∈ s.carousel_running_activities := by
    unfold find_activity_by_app_id at hfind
    cases hid : w.app_id with
    | none => simp [hid] at hfind
    | some n =>
      simp only [hid] at hfind
      cases hl : shell.desktop_app_info_for_app_id n with
      | none => simp [hl] at hfind
      | some i =>
        simp only [hl] at hfind
        exact (find_activity_by_app_info_some s i a hfind).1
  unfold on_toplevel_added
  refine ⟨⟨k, hk⟩, ?_, rfl, ?_, ?_, ?_⟩
  · rw [hk]
    unfold insert_at
    have := List.take_append_drop k s.carousel_running_activities
    have hlen := congrArg List.length this
    simp only [List.length_append, List.length_cons] at hlen ⊢
    omega
  · show s.next_ptr ≠ a.ptr
    exact Nat.ne_of_gt (hwf.2 a hmem)
  · rw [hk]
    exact (mem_insert_at _ _ _ _).mpr (Or.inr hmem)
  · intro x hx
    rw [hk]
    exact (mem_insert_at _ _ _ _).mpr (Or.inr hx)

/-- Witness for C11: app a runs in window 5 and a second window of app a arrives. -/
theorem second_window_gets_new_entry_witness :
    (on_toplevel_added ex_shell ex_running_a (ex_window_of 6 "a")
      ).carousel_running_activities.length = ex_running_a.carousel_running_activities.length + 1 ∧
    (on_toplevel_added ex_shell ex_running_a (ex_window_of 6 "a")
      ).carousel_running_activities.map (fun a => (a.ptr, a.toplevel)) =
        [(0, some 5), (1, some 6)] :=
  ⟨(second_window_gets_new_entry ex_shell ex_running_a (ex_window_of 6 "a")
    (upgrade_activity ex_shell (ex_window_of 5 "a")
      (ex_splash_activity 0 ex_info_a (some "t0"))) 5 (by decide) (by decide) rfl).2.1,
    by decide⟩

/-! ## A launch appends a splash (C12) -/

/-- Claim C12: a launch appends exactly one new entry at the tail and keeps the
entries already present in place; the new entry has no toplevel, carries the
given startup id, has the usable area as width and height, and is neither
maximized nor fullscreen.  An entry of the same app does not change this: a
second launch of the app appends a second splash. -/
theorem launch_appends_splash (shell shell2 : PhoshShell) (s : PhoshOverview) (info : GAppInfo)
    (t t2 : Option String) (hwf : ptrs_wf s) :
    (on_app_launch_started shell s info t).carousel_running_activities =
      s.carousel_running_activities ++
        [set_startup_id t (phosh_activity_new shell s (some info) none none none)] ∧
    (set_startup_id t (phosh_activity_new shell s (some info) none none none)).toplevel = none ∧
    (set_startup_id t (phosh_activity_new shell s (some info) none none none)).startup_id = t ∧
    (set_startup_id t (phosh_activity_new shell s (some info) none none none)).win_width =
      shell.usable_width ∧
    (set_startup_id t (phosh_activity_new shell s (some info) none none none)).win_height =
      shell.usable_height ∧
    (set_startup_id t (phosh_activity_new shell s (some info) none none none)).maximized =
      false ∧
    (set_startup_id t (phosh_activity_new shell s (some info) none none none)).fullscreen =
      false ∧
    (set_startup_id t (phosh_activity_new shell s (some info) none none none)).app_info =
      some info ∧
    (on_app_launch_started shell2 (on_app_launch_started shell s info t) info
      t2).carousel_running_activities =
      s.carousel_running_activities ++
        [set_startup_id t (phosh_activity_new shell s (some info) none none none),
         set_startup_id t2 (phosh_activity_new shell2 (on_app_launch_started shell s info t)
           (some info) none none none)] := by
  have h1 := on_app_launch_started_carousel_wf shell s info t hwf
  have hwf1 := on_app_launch_started_wf shell s info t hwf
  have h2 := on_app_launch_started_carousel_wf shell2 _ info t2 hwf1
  refine ⟨h1, rfl, rfl, rfl, rfl, rfl, rfl, rfl, ?_⟩
  rw [h2, h1]
  simp

/-- Witness for C12: app a, already running in window 5, is launched twice more. -/
theorem launch_appends_splash_witness :
    (on_app_launch_started ex_shell (on_app_launch_started ex_shell ex_running_a ex_info_a
      (some "t1")) ex_info_a (some "t2")).carousel_running_activities.map
        (fun a => (a.ptr, a.toplevel, a.startup_id)) =
      [(0, some 5, none), (1, none, some "t1"), (2, none, some "t2")] := by
  rw [(launch_appends_splash ex_shell ex_shell ex_running_a ex_info_a (some "t1") (some "t2")
    (by decide)).2.2.2.2.2.2.2.2]
  decide

/-! ## Closing an unknown window (C13) -/

/-- No child bound to the window: the lookup by toplevel finds nothing. -/
theorem find_activity_by_toplevel_none (s : PhoshOverview) (h : Nat)
    (hnone : ∀ x ∈ s.carousel_running_activities, x.toplevel ≠ some h) :
    find_activity_by_toplevel s h = none := by
  unfold find_activity_by_toplevel
  rw [List.find?_eq_none]
  intro x hx
  have := hnone x hx
  cases ht : x.toplevel with
  | none => simp [toplevel_matches, get_toplevel_from_activity, ht]
  | some t =>
    have hne : t ≠ h := fun e => this (by rw [ht, e])
    simp [toplevel_matches, get_toplevel_from_activity, ht, hne]

/-- Claim C13: a close event for a window that no entry is bound to stops at the
check of the lookup's result: the lookup yields no entry and the handler leaves
the state as it was, so no entry is removed and the focused-entry reference
keeps its value. -/
theorem on_toplevel_closed_unknown_window (s : PhoshOverview) (w : PhoshToplevel)
    (hnone : ∀ x ∈ s.carousel_running_activities, x.toplevel ≠ some w.handle) :
    find_activity_by_toplevel s w.handle = none ∧
    on_toplevel_closed s w = s ∧
    (on_toplevel_closed s w).carousel_running_activities = s.carousel_running_activities ∧
    (on_toplevel_closed s w).activity = s.activity := by
  have hfind := find_activity_by_toplevel_none s w.handle hnone
  have hs : on_toplevel_closed s w = s := by
    unfold on_toplevel_closed
    rw [hfind]
  exact ⟨hfind, hs, by rw [hs], by rw [hs]⟩

/-- Witness for C13: window 99 is closed while the focused entry is bound to
window 21. -/
theorem on_toplevel_closed_unknown_window_witness :
    on_toplevel_closed { ex_xya with activity := some 1 } (ex_window_of 99 "y") =
      { ex_xya with activity := some 1 } :=
  (on_toplevel_closed_unknown_window { ex_xya with activity := some 1 } (ex_window_of 99 "y")
    (by decide)).2.1

/-! ## Focus at bind time (C19) -/

@[simp] theorem carousel_set_children_thumbnail_requests (s : PhoshOverview)
    (l : List PhoshActivity) :
    (carousel_set_children s l).thumbnail_requests = s.thumbnail_requests := by
  unfold carousel_set_children on_n_pages_changed set_has_activities
  dsimp only
  split_ifs <;> rfl

@[simp] theorem create_new_activity_scroll_target (shell : PhoshShell) (s : PhoshOverview)
    (info : Option GAppInfo) (toplevel : Option PhoshToplevel) (app_id parent : Option String) :
    (create_new_activity shell s info toplevel app_id parent).1.scroll_target =
      s.scroll_target := by
  unfold create_new_activity; dsimp only
  split_ifs <;> simp [hdy_carousel_insert, gtk_container_add]

@[simp] theorem create_new_activity_focus (shell : PhoshShell) (s : PhoshOverview)
    (info : Option GAppInfo) (toplevel : Option PhoshToplevel) (app_id parent : Option String) :
    (create_new_activity shell s info toplevel app_id parent).1.focus = s.focus := by
  unfold create_new_activity; dsimp only
  split_ifs <;> simp [hdy_carousel_insert, gtk_container_add]

/-- The entry at the pointer `toplevel_to_activity` attaches the toplevel to is
among the children afterwards, bound to the toplevel. -/
theorem toplevel_to_activity_ptr_bound (shell : PhoshShell) (s : PhoshOverview)
    (w : PhoshToplevel) :
    ∃ e ∈ (toplevel_to_activity shell s w).carousel_running_activities,
      e.ptr = toplevel_to_activity_ptr shell s w ∧ e.toplevel = some w.handle := by
  unfold toplevel_to_activity_ptr
  cases hr : reusable_activity shell s w with
  | some a =>
    obtain ⟨hmem, _, _⟩ := reusable_activity_some shell s w a hr
    refine ⟨upgrade_activity shell w a, ?_, rfl, rfl⟩
    rw [toplevel_to_activity_carousel_reuse shell s w a hr]
    have : update_at a.ptr (upgrade_activity shell w) a = upgrade_activity shell w a := by
      simp [update_at]
    rw [← this]
    exact List.mem_map_of_mem _ hmem
  | none =>
    obtain ⟨k, hk⟩ := create_new_activity_insert_at shell s none (some w) w.app_id
      (resolve_parent_app_id shell w)
    refine ⟨set_toplevel w.handle (phosh_activity_new shell s none (some w) w.app_id
      (resolve_parent_app_id shell w)), ?_, rfl, rfl⟩
    rw [toplevel_to_activity_carousel_create shell s w hr, hk]
    have : update_at s.next_ptr (set_toplevel w.handle)
        (phosh_activity_new shell s none (some w) w.app_id (resolve_parent_app_id shell w)) =
        set_toplevel w.handle (phosh_activity_new shell s none (some w) w.app_id
          (resolve_parent_app_id shell w)) := by
      simp [update_at, phosh_activity_new]
    rw [← this]
    exact List.mem_map_of_mem _ ((mem_insert_at _ _ _ _).mpr (Or.inl rfl))

/-- The focus fields after `toplevel_to_activity`, by the window's activated flag. -/
theorem toplevel_to_activity_focus_fields (shell : PhoshShell) (s : PhoshOverview)
    (w : PhoshToplevel) :
    (w.activated = true →
      (toplevel_to_activity shell s w).activity = some (toplevel_to_activity_ptr shell s w) ∧
      (toplevel_to_activity shell s w).scroll_target =
        some (toplevel_to_activity_ptr shell s w) ∧
      (toplevel_to_activity shell s w).focus = some (toplevel_to_activity_ptr shell s w)) ∧
    (w.activated = false →
      (toplevel_to_activity shell s w).activity = s.activity ∧
      (toplevel_to_activity shell s w).scroll_target = s.scroll_target ∧
      (toplevel_to_activity shell s w).focus = s.focus) := by
  unfold toplevel_to_activity toplevel_to_activity_ptr
  cases hr : reusable_activity shell s w with
  | some a =>
    constructor
    · intro ha
      simp [ha, scroll_to_activity]
    · intro ha
      simp [ha, update_activity, request_thumbnail]
  | none =>
    constructor
    · intro ha
      simp only [ha, if_true]
      simp [scroll_to_activity]
    · intro ha
      simp only [ha]
      simp [update_activity]

/-- Claim C19: when `toplevel_to_activity` binds a window that reports itself
activated, the entry it bound (the upgraded splash or the new entry) becomes the
focused entry and the scroll target; when the window is not activated, the
focused-entry reference and the scroll target are what they were. -/
theorem bind_focuses_activated_window (shell : PhoshShell) (s : PhoshOverview)
    (w : PhoshToplevel) :
    (w.activated = true →
      ∃ e ∈ (toplevel_to_activity shell s w).carousel_running_activities,
        e.toplevel = some w.handle ∧
        e.ptr = toplevel_to_activity_ptr shell s w ∧
        (toplevel_to_activity shell s w).activity = some e.ptr ∧
        (toplevel_to_activity shell s w).scroll_target = some e.ptr) ∧
    (w.activated = false →
      (toplevel_to_activity shell s w).activity = s.activity ∧
      (toplevel_to_activity shell s w).scroll_target = s.scroll_target) := by
  obtain ⟨hact, hnot⟩ := toplevel_to_activity_focus_fields shell s w
  constructor
  · intro ha
    obtain ⟨e, he, hp, ht⟩ := toplevel_to_activity_ptr_bound shell s w
    obtain ⟨h1, h2, _⟩ := hact ha
    exact ⟨e, he, ht, hp, by rw [h1, hp], by rw [h2, hp]⟩
  · intro ha
    exact ⟨(hnot ha).1, (hnot ha).2.1⟩

/-- Witness for C19: an activated window of app a upgrades the pending splash of a
(pointer 0), which becomes focused entry and scroll target; the same window, not
activated, leaves both unset. -/
theorem bind_focuses_activated_window_witness :
    (toplevel_to_activity ex_shell ex_splash_a
        { ex_window_of 5 "a" with activated := true }).activity = some 0 ∧
      (toplevel_to_activity ex_shell ex_splash_a
        { ex_window_of 5 "a" with activated := true }).scroll_target = some 0 ∧
      (toplevel_to_activity ex_shell ex_splash_a (ex_window_of 5 "a")).activity = none ∧
      (toplevel_to_activity ex_shell ex_splash_a (ex_window_of 5 "a")).scroll_target = none := by
  obtain ⟨e, _, _, hp, h1, h2⟩ := (bind_focuses_activated_window ex_shell ex_splash_a
    { ex_window_of 5 "a" with activated := true }).1 rfl
  have hp0 : e.ptr = 0 := by rw [hp]; decide
  obtain ⟨h3, h4⟩ := (bind_focuses_activated_window ex_shell ex_splash_a
    (ex_window_of 5 "a")).2 rfl
  exact ⟨by rw [h1, hp0], by rw [h2, hp0], h3, h4⟩

/-! ## Page changes (C15) -/

/-- Claim C15, against the claim as stated: with the overview shown and the shell
not docked, a page change to a splash (an entry without a window) makes the
activate call without a toplevel, so no activate goes out for a window bound to
the entry; the same holds for an index beyond the last entry, where no entry
gets the focus either. -/
theorem on_page_changed_splash_no_window :
    guint_as_int 1 ≥ 0 ∧
    (ex_overview [ex_window_activity 0 "x" 20, ex_splash_activity 1 ex_info_a (some "t")] 2
      ).carousel_running_activities[1]? = some (ex_splash_activity 1 ex_info_a (some "t")) ∧
    (on_page_changed ex_overview_shown
      (ex_overview [ex_window_activity 0 "x" 20, ex_splash_activity 1 ex_info_a (some "t")] 2)
      1).2 = [Call.toplevel_activate none] ∧
    (on_page_changed ex_overview_shown
      (ex_overview [ex_window_activity 0 "x" 20, ex_splash_activity 1 ex_info_a (some "t")] 2)
      5).2 = [Call.toplevel_activate none] ∧
    (on_page_changed ex_overview_shown
      (ex_overview [ex_window_activity 0 "x" 20, ex_splash_activity 1 ex_info_a (some "t")] 2)
      5).1.focus = none := by
  decide

/-- Claim C15, amended: `on_page_changed` makes no call when the index is negative
as an `int`, when the shell is docked, or when the overview is not shown; in
every other case in which the entry at the index has a bound window it makes
exactly one call, the activate for that window, and the entry has the keyboard
focus afterwards.  It never changes the children. -/
theorem on_page_changed_calls (state : PhoshShellState) (s : PhoshOverview) (index : Nat) :
    (guint_as_int index < 0 ∨ state.docked = true ∨ state.overview = false →
      on_page_changed state s index = (s, [])) ∧
    (¬ guint_as_int index < 0 → state.docked = false → state.overview = true →
      ∀ (a : PhoshActivity) (h : Nat),
        s.carousel_running_activities[index % 2 ^ 32]? = some a → a.toplevel = some h →
        (on_page_changed state s index).2 = [Call.toplevel_activate (some h)] ∧
        (on_page_changed state s index).1.focus = some a.ptr) ∧
    (on_page_changed state s index).1.carousel_running_activities =
      s.carousel_running_activities := by
  refine ⟨?_, ?_, ?_⟩
  · intro h
    unfold on_page_changed
    rcases h with h | h | h
    · rw [if_pos h]
    · by_cases h0 : guint_as_int index < 0
      · rw [if_pos h0]
      · rw [if_neg h0, if_pos h]
    · by_cases h0 : guint_as_int index < 0
      · rw [if_pos h0]
      · by_cases h1 : state.docked = true
        · rw [if_neg h0, if_pos h1]
        · rw [if_neg h0, if_neg h1]
          simp [h]
  · intro h0 h1 h2 a h ha ht
    unfold on_page_changed
    rw [if_neg h0]
    simp only [h1, h2, ha, Bool.false_eq_true, if_false, Bool.not_true]
    by_cases hf : s.focus = some a.ptr
    · simp [hf, get_toplevel_from_activity, ht]
    · simp [hf, get_toplevel_from_activity, ht, gtk_widget_grab_focus,
        on_activity_has_focus_changed]
  · unfold on_page_changed
    split_ifs
    · rfl
    · rfl
    · rfl
    · cases hget : s.carousel_running_activities[index % 2 ^ 32]? with
      | none => rfl
      | some a =>
        dsimp only
        split_ifs
        · rfl
        · unfold gtk_widget_grab_focus on_activity_has_focus_changed
          dsimp only
          split_ifs <;> rfl

/-- Witness for C15 (amended): with the overview shown, the page changes to the
entry at index 1, bound to window 21. -/
theorem on_page_changed_calls_witness :
    (on_page_changed ex_overview_shown ex_xya 1).2 = [Call.toplevel_activate (some 21)] ∧
      (on_page_changed ex_overview_shown ex_xya 1).1.focus = some 1 ∧
      on_page_changed ex_overview_hidden ex_xya 1 = (ex_xya, []) :=
  ⟨((on_page_changed_calls ex_overview_shown ex_xya 1).2.1 (by decide) rfl rfl
      (ex_window_activity 1 "y" 21) 21 (by decide) rfl).1,
   ((on_page_changed_calls ex_overview_shown ex_xya 1).2.1 (by decide) rfl rfl
      (ex_window_activity 1 "y" 21) 21 (by decide) rfl).2,
   (on_page_changed_calls ex_overview_hidden ex_xya 1).1 (Or.inr (Or.inr rfl))⟩

/-! ## Clicks and close requests on an entry (C16, C17) -/

/-- Claim C16: a click on an entry with a window makes the activate call for that
window and then lowers all splashes; a click on a splash with a startup id
raises the splash with exactly that id; a click on a splash without a startup id
makes no call on any collaborator.  The overview's own signal `activity-raised`
is emitted in each case, and the state, with the collection, is unchanged. -/
theorem on_activity_clicked_calls (s : PhoshOverview) (a : PhoshActivity) :
    (∀ h, a.toplevel = some h →
      (on_activity_clicked s a).2 =
        [Call.toplevel_activate (some h), Call.splash_manager_lower_all,
          Call.signal_emit OverviewSignal.activity_raised]) ∧
    (∀ t, a.toplevel = none → a.startup_id = some t →
      (on_activity_clicked s a).2 =
        [Call.splash_manager_raise t, Call.signal_emit OverviewSignal.activity_raised]) ∧
    (a.toplevel = none → a.startup_id = none →
      (on_activity_clicked s a).2 = [Call.signal_emit OverviewSignal.activity_raised] ∧
      (on_activity_clicked s a).2.filter is_command = []) ∧
    (on_activity_clicked s a).1 = s := by
  refine ⟨?_, ?_, ?_, ?_⟩
  · intro h ht
    simp [on_activity_clicked, get_toplevel_from_activity, ht]
  · intro t ht hs
    simp [on_activity_clicked, get_toplevel_from_activity, ht, hs]
  · intro ht hs
    simp [on_activity_clicked, get_toplevel_from_activity, ht, hs, is_command]
  · unfold on_activity_clicked
    cases get_toplevel_from_activity (some a) with
    | some t => rfl
    | none => cases a.startup_id <;> rfl

/-- Witness for C16: clicks on the entry of window 21, on a splash with startup id
`"t"` and on a splash without one. -/
theorem on_activity_clicked_calls_witness :
    (on_activity_clicked ex_xya (ex_window_activity 1 "y" 21)).2 =
        [Call.toplevel_activate (some 21), Call.splash_manager_lower_all,
          Call.signal_emit OverviewSignal.activity_raised] ∧
      (on_activity_clicked ex_splash_a (ex_splash_activity 0 ex_info_a (some "t"))).2 =
        [Call.splash_manager_raise "t", Call.signal_emit OverviewSignal.activity_raised] ∧
      (on_activity_clicked ex_splash_a (ex_splash_activity 0 ex_info_a none)).2.filter
        is_command = [] :=
  ⟨(on_activity_clicked_calls ex_xya (ex_window_activity 1 "y" 21)).1 21 rfl,
   (on_activity_clicked_calls ex_splash_a (ex_splash_activity 0 ex_info_a (some "t"))).2.1 "t"
     rfl rfl,
   ((on_activity_clicked_calls ex_splash_a (ex_splash_activity 0 ex_info_a none)).2.2.1
     rfl rfl).2⟩

/-- Claim C17: a close request on an entry with a window makes exactly one call on
a toplevel, the close of that window (followed by the feedback and the
overview's `activity-closed` signal), and leaves the state unchanged, so the entry
is still among the children; on an entry without a window it makes no call and
changes nothing. -/
theorem on_activity_closed_calls (s : PhoshOverview) (a : PhoshActivity) :
    (∀ h, a.toplevel = some h →
      (on_activity_closed s a).2 =
        [Call.toplevel_close h, Call.trigger_feedback "window-close",
          Call.signal_emit OverviewSignal.activity_closed] ∧
      (on_activity_closed s a).2.filter is_toplevel_call = [Call.toplevel_close h]) ∧
    (a.toplevel = none → (on_activity_closed s a).2 = []) ∧
    (on_activity_closed s a).1 = s ∧
    (a ∈ s.carousel_running_activities →
      a ∈ (on_activity_closed s a).1.carousel_running_activities) := by
  have hs : (on_activity_closed s a).1 = s := by
    unfold on_activity_closed
    cases a.toplevel <;> rfl
  refine ⟨?_, ?_, hs, ?_⟩
  · intro h ht
    simp [on_activity_closed, ht, is_toplevel_call]
  · intro ht
    simp [on_activity_closed, ht]
  · intro ha
    rw [hs]
    exact ha

/-- Witness for C17: a close request on the entry of window 21, and one on a
splash. -/
theorem on_activity_closed_calls_witness :
    (on_activity_closed ex_xya (ex_window_activity 1 "y" 21)).2.filter is_toplevel_call =
        [Call.toplevel_close 21] ∧
      (on_activity_closed ex_splash_a (ex_splash_activity 0 ex_info_a (some "t0"))).2 = [] ∧
      ex_window_activity 1 "y" 21 ∈
        (on_activity_closed ex_xya (ex_window_activity 1 "y" 21)).1.carousel_running_activities :=
  ⟨((on_activity_closed_calls ex_xya (ex_window_activity 1 "y" 21)).1 21 rfl).2,
   (on_activity_closed_calls ex_splash_a (ex_splash_activity 0 ex_info_a (some "t0"))).2.1 rfl,
   (on_activity_closed_calls ex_xya (ex_window_activity 1 "y" 21)).2.2.2 (by decide)⟩

/-! ## Changed toplevels (C18) -/

/-- Claim C18: `on_toplevel_changed` requests a thumbnail, for the window's
(first) bound entry, exactly when the overview is not shown and the window has a
bound entry; with the overview shown, or without a bound entry, it changes
nothing.  In every case the children and the focused-entry reference are
unchanged. -/
theorem on_toplevel_changed_thumbnail (state : PhoshShellState) (s : PhoshOverview)
    (w : PhoshToplevel) :
    (state.overview = true → on_toplevel_changed state s w = s) ∧
    (state.overview = false →
      ∀ (pre post : List PhoshActivity) (E : PhoshActivity),
        s.carousel_running_activities = pre ++ E :: post → E.toplevel = some w.handle →
        (∀ x ∈ pre, x.toplevel ≠ some w.handle) →
        (on_toplevel_changed state s w).thumbnail_requests =
          s.thumbnail_requests ++ [(E.ptr, w.handle)]) ∧
    ((∀ x ∈ s.carousel_running_activities, x.toplevel ≠ some w.handle) →
      on_toplevel_changed state s w = s) ∧
    (on_toplevel_changed state s w).carousel_running_activities =
      s.carousel_running_activities ∧
    (on_toplevel_changed state s w).activity = s.activity := by
  refine ⟨?_, ?_, ?_, ?_, ?_⟩
  · intro h
    simp [on_toplevel_changed, h]
  · intro h pre post E hs hE hpre
    have hfind := find_activity_by_toplevel_first s w.handle pre post E hs hE hpre
    simp [on_toplevel_changed, h, hfind, request_thumbnail]
  · intro hnone
    have hfind := find_activity_by_toplevel_none s w.handle hnone
    unfold on_toplevel_changed
    rw [hfind]
    split_ifs <;> rfl
  · unfold on_toplevel_changed
    split_ifs
    · rfl
    · cases find_activity_by_toplevel s w.handle <;> rfl
  · unfold on_toplevel_changed
    split_ifs
    · rfl
    · cases find_activity_by_toplevel s w.handle <;> rfl

/-- Witness for C18: window 21 changes, once with the overview hidden and once with
the overview shown. -/
theorem on_toplevel_changed_thumbnail_witness :
    (on_toplevel_changed ex_overview_hidden ex_xya (ex_window_of 21 "y")).thumbnail_requests =
        [(1, 21)] ∧
      on_toplevel_changed ex_overview_shown ex_xya (ex_window_of 21 "y") = ex_xya ∧
      on_toplevel_changed ex_overview_hidden ex_xya (ex_window_of 99 "y") = ex_xya :=
  ⟨(on_toplevel_changed_thumbnail ex_overview_hidden ex_xya (ex_window_of 21 "y")).2.1 rfl
      [ex_window_activity 0 "x" 20] [ex_window_activity 2 "a" 7] (ex_window_activity 1 "y" 21)
      rfl rfl (by decide),
   (on_toplevel_changed_thumbnail ex_overview_shown ex_xya (ex_window_of 21 "y")).1 rfl,
   (on_toplevel_changed_thumbnail ex_overview_hidden ex_xya (ex_window_of 99 "y")).2.2.1
      (by decide)⟩

/-! ## Mirrored window flags (C14) -/

@[simp] theorem set_activity_property_ptr (property : String) (v : Bool) (a : PhoshActivity) :
    (set_activity_property property v a).ptr = a.ptr := by
  unfold set_activity_property; split_ifs <;> rfl

/-- A binding reacting to its source keeps the children's pointers. -/
theorem binding_source_changed_ptrs (h : Nat) (property : String) (v : Bool)
    (o : PhoshOverview) (b : GBinding) :
    (binding_source_changed h property v o b).carousel_running_activities.map (fun a => a.ptr) =
      o.carousel_running_activities.map (fun a => a.ptr) := by
  unfold binding_source_changed
  split_ifs
  · rw [update_activity_carousel]
    exact map_ptr_update_at _ _ _ (set_activity_property_ptr _ _)
  · rfl

theorem foldl_binding_source_changed_ptrs (h : Nat) (property : String) (v : Bool)
    (bs : List GBinding) (o : PhoshOverview) :
    (bs.foldl (binding_source_changed h property v) o).carousel_running_activities.map
        (fun a => a.ptr) =
      o.carousel_running_activities.map (fun a => a.ptr) := by
  induction bs generalizing o with
  | nil => rfl
  | cons b rest ih =>
    rw [List.foldl_cons, ih, binding_source_changed_ptrs]

/-- After an update of the object at `p`, every child at `p` is an updated one. -/
theorem mem_update_activity_at (o : PhoshOverview) (p : Nat) (f : PhoshActivity → PhoshActivity)
    (hf : ∀ a, (f a).ptr = a.ptr) (e : PhoshActivity)
    (he : e ∈ (update_activity o p f).carousel_running_activities) (hp : e.ptr = p) :
    ∃ x ∈ o.carousel_running_activities, x.ptr = p ∧ e = f x := by
  rw [update_activity_carousel] at he
  obtain ⟨x, hx, rfl⟩ := List.mem_map.mp he
  have hxp : x.ptr = p := by
    rw [update_at_ptr p f hf] at hp
    exact hp
  exact ⟨x, hx, hxp, by simp [update_at, hxp]⟩

/-- A change of the bound window's flag reaches the entry: the overview after the
bindings reacted, for either of the two properties. -/
theorem toplevel_property_changed_overview (shell : PhoshShell) (d : Desktop)
    (w : PhoshToplevel) (property : String) (v : Bool)
    (hprop : property = "maximized" ∨ property = "fullscreen") :
    (toplevel_property_changed (desktop_toplevel_to_activity shell d w) w.handle property
      v).overview =
      update_activity
        (d.bindings.foldl (binding_source_changed w.handle property v)
          (toplevel_to_activity shell d.overview w))
        (toplevel_to_activity_ptr shell d.overview w) (set_activity_property property v) := by
  unfold toplevel_property_changed desktop_toplevel_to_activity toplevel_to_activity_bindings
  dsimp only
  rw [List.foldl_append]
  rcases hprop with rfl | rfl
  · simp [binding_source_changed]
  · simp [binding_source_changed]

/-- Claim C14, against the claim as stated: after window 5 was bound to the entry
with pointer 0, a change of the entry's maximized or fullscreen flag leaves the
window's flags as they were. -/
theorem activity_flag_not_written_back :
    (desktop_toplevel_to_activity ex_shell ex_desktop
      (ex_window_of 5 "a")).overview.carousel_running_activities.map
        (fun a => (a.ptr, a.toplevel)) = [(0, some 5)] ∧
    (activity_property_changed (desktop_toplevel_to_activity ex_shell ex_desktop
      (ex_window_of 5 "a")) 0 "maximized" true).overview.carousel_running_activities.map
        (fun a => a.maximized) = [true] ∧
    (activity_property_changed (desktop_toplevel_to_activity ex_shell ex_desktop
      (ex_window_of 5 "a")) 0 "maximized" true).toplevels.map (fun t => t.maximized) =
        [false] ∧
    (activity_property_changed (desktop_toplevel_to_activity ex_shell ex_desktop
      (ex_window_of 5 "a")) 0 "fullscreen" true).toplevels.map (fun t => t.fullscreen) =
        [false] := by
  decide

/-- Claim C14, amended: after `toplevel_to_activity` bound window `W` to entry `E`,
every change of `W`'s maximized or fullscreen flag is written to `E`'s flag.  The
bindings go in this direction only: a change of an entry's flag leaves every
toplevel as it was; a fullscreen request raised by `E` is instead sent on as a
fullscreen call for `W`. -/
theorem toplevel_flags_mirrored_to_activity (shell : PhoshShell) (d : Desktop)
    (w : PhoshToplevel) (v : Bool) :
    (∃ e ∈ (toplevel_property_changed (desktop_toplevel_to_activity shell d w) w.handle
        "maximized" v).overview.carousel_running_activities,
      e.ptr = toplevel_to_activity_ptr shell d.overview w) ∧
    (∀ e ∈ (toplevel_property_changed (desktop_toplevel_to_activity shell d w) w.handle
        "maximized" v).overview.carousel_running_activities,
      e.ptr = toplevel_to_activity_ptr shell d.overview w → e.maximized = v) ∧
    (∃ e ∈ (toplevel_property_changed (desktop_toplevel_to_activity shell d w) w.handle
        "fullscreen" v).overview.carousel_running_activities,
      e.ptr = toplevel_to_activity_ptr shell d.overview w) ∧
    (∀ e ∈ (toplevel_property_changed (desktop_toplevel_to_activity shell d w) w.handle
        "fullscreen" v).overview.carousel_running_activities,
      e.ptr = toplevel_to_activity_ptr shell d.overview w → e.fullscreen = v) ∧
    ((∀ b ∈ d.bindings, b.flags = GBindingFlags.G_BINDING_DEFAULT) →
      ∀ (p : Nat) (property : String),
        (activity_property_changed (desktop_toplevel_to_activity shell d w) p property
          v).toplevels = (desktop_toplevel_to_activity shell d w).toplevels) ∧
    (∀ (s : PhoshOverview) (E : PhoshActivity), E.toplevel = some w.handle →
      (on_activity_fullscreened s v E).2 = [Call.toplevel_fullscreen w.handle v]) := by
  have hex : ∀ property : String, ∃ x ∈ (d.bindings.foldl
      (binding_source_changed w.handle property v)
      (toplevel_to_activity shell d.overview w)).carousel_running_activities,
      x.ptr = toplevel_to_activity_ptr shell d.overview w := by
    intro property
    obtain ⟨e, he, hp, _⟩ := toplevel_to_activity_ptr_bound shell d.overview w
    have hmem : toplevel_to_activity_ptr shell d.overview w ∈
        (d.bindings.foldl (binding_source_changed w.handle property v)
          (toplevel_to_activity shell d.overview w)).carousel_running_activities.map
            (fun a => a.ptr) := by
      rw [foldl_binding_source_changed_ptrs, ← hp]
      exact List.mem_map_of_mem (fun a => a.ptr) he
    obtain ⟨x, hx, hxp⟩ := List.mem_map.mp hmem
    exact ⟨x, hx, hxp⟩
  have hexists : ∀ property : String, property = "maximized" ∨ property = "fullscreen" →
      ∃ e ∈ (toplevel_property_changed (desktop_toplevel_to_activity shell d w) w.handle
        property v).overview.carousel_running_activities,
        e.ptr = toplevel_to_activity_ptr shell d.overview w := by
    intro property hprop
    rw [toplevel_property_changed_overview shell d w property v hprop]
    obtain ⟨x, hx, hxp⟩ := hex property
    refine ⟨update_at (toplevel_to_activity_ptr shell d.overview w)
      (set_activity_property property v) x, ?_, ?_⟩
    · rw [update_activity_carousel]
      exact List.mem_map_of_mem _ hx
    · rw [update_at_ptr _ _ (set_activity_property_ptr _ _)]
      exact hxp
  refine ⟨hexists _ (Or.inl rfl), ?_, hexists _ (Or.inr rfl), ?_, ?_, ?_⟩
  · intro e he hp
    rw [toplevel_property_changed_overview shell d w _ v (Or.inl rfl)] at he
    obtain ⟨x, _, _, rfl⟩ := mem_update_activity_at _ _ _ (set_activity_property_ptr _ _) e he hp
    simp [set_activity_property]
  · intro e he hp
    rw [toplevel_property_changed_overview shell d w _ v (Or.inr rfl)] at he
    obtain ⟨x, _, _, rfl⟩ := mem_update_activity_at _ _ _ (set_activity_property_ptr _ _) e he hp
    simp [set_activity_property]
  · intro hdef p property
    have hall : ∀ b ∈ (desktop_toplevel_to_activity shell d w).bindings,
        b.flags = GBindingFlags.G_BINDING_DEFAULT := by
      intro b hb
      unfold desktop_toplevel_to_activity toplevel_to_activity_bindings at hb
      simp only [List.mem_append, List.mem_cons, List.mem_singleton, List.not_mem_nil,
        or_false] at hb
      rcases hb with hb | rfl | rfl
      · exact hdef b hb
      · rfl
      · rfl
    unfold activity_property_changed
    dsimp only
    generalize (desktop_toplevel_to_activity shell d w).bindings = bs at hall
    generalize (desktop_toplevel_to_activity shell d w).toplevels = ts
    induction bs generalizing ts with
    | nil => rfl
    | cons b rest ih =>
      rw [List.foldl_cons]
      have hb := hall b (List.mem_cons_self _ _)
      have hstep : binding_target_changed p property v ts b = ts := by
        unfold binding_target_changed
        simp [hb]
      rw [hstep]
      exact ih (fun x hx => hall x (List.mem_cons_of_mem _ hx)) ts
  · intro s E hE
    simp [on_activity_fullscreened, hE]

/-- Witness for C14 (amended): window 5, bound to the entry with pointer 0, becomes
maximized. -/
theorem toplevel_flags_mirrored_to_activity_witness :
    (toplevel_property_changed (desktop_toplevel_to_activity ex_shell ex_desktop
      (ex_window_of 5 "a")) 5 "maximized" true).overview.carousel_running_activities.map
        (fun a => (a.ptr, a.maximized)) = [(0, true)] ∧
    (activity_property_changed (desktop_toplevel_to_activity ex_shell ex_desktop
      (ex_window_of 5 "a")) 0 "fullscreen" true).toplevels = [ex_window_of 5 "a"] :=
  ⟨by decide,
   (toplevel_flags_mirrored_to_activity ex_shell ex_desktop (ex_window_of 5 "a") true).2.2.2.2.1
     (by decide) 0 "fullscreen"⟩

/-! ## Marks of the channel bar (C20) -/

/-- When the flag changes, the marks are those for the bar's base volume and the
new flag. -/
theorem set_is_amplified_marks_of_change (ui_max : Nat) (bar : PhoshChannelBar) (a : Bool)
    (h : bar.is_amplified ≠ a) :
    (phosh_channel_bar_set_is_amplified ui_max bar a).marks = marks_for bar.base_volume a := by
  unfold phosh_channel_bar_set_is_amplified marks_for
  rw [if_neg h]
  cases a <;> simp

/-- When the flag does not change, the bar stays as it is. -/
theorem set_is_amplified_of_same (ui_max : Nat) (bar : PhoshChannelBar) (a : Bool)
    (h : bar.is_amplified = a) : phosh_channel_bar_set_is_amplified ui_max bar a = bar := by
  unfold phosh_channel_bar_set_is_amplified
  rw [if_pos h]

/-- Claim C20, on the code: a bar that was switched to amplified at base volume
`PA_VOLUME_NORM` carries the single mark 100%; after the base volume is set to
32768 and the bar is set to amplified again, the marks are still that single
mark, while the marks for base volume 32768 are Unamplified at 32768 and 100% at
`PA_VOLUME_NORM`: the second call returns early and the marks are stale. -/
theorem marks_stale_after_base_volume_change :
    (phosh_channel_bar_set_is_amplified 99957 phosh_channel_bar_init true).marks =
        [{ value := 65536, markup := "<small>100%</small>" }] ∧
      (phosh_channel_bar_set_base_volume
        (phosh_channel_bar_set_is_amplified 99957 phosh_channel_bar_init true)
        32768).base_volume = 32768 ∧
      (update_output_vol_bar_marks 99957
        (phosh_channel_bar_set_is_amplified 99957 phosh_channel_bar_init true) 32768
        true).marks = [{ value := 65536, markup := "<small>100%</small>" }] ∧
      marks_for 32768 true =
        [{ value := 32768, markup := "<small>Unamplified</small>" },
         { value := 65536, markup := "<small>100%</small>" }] ∧
      (update_output_vol_bar_marks 99957
        (phosh_channel_bar_set_is_amplified 99957 phosh_channel_bar_init true) 32768
        true).marks ≠ marks_for 32768 true := by
  decide

/-! ## Marks placed on a switch of the amplified flag (C21) -/

/-- Claim C21: when `phosh_channel_bar_set_is_amplified` switches a bar to
amplified, a base volume equal to `PA_VOLUME_NORM` gives exactly one mark, 100%
at `PA_VOLUME_NORM`; any other base volume gives an Unamplified mark at the base
volume, followed by a 100% mark at `PA_VOLUME_NORM` exactly when the base volume
is lower than `PA_VOLUME_NORM`.  When it switches the bar to not amplified, no
marks remain and the upper bound of the adjustment is `PA_VOLUME_NORM`. -/
theorem set_is_amplified_marks (ui_max : Nat) (bar : PhoshChannelBar) :
    (bar.is_amplified = false → bar.base_volume = PA_VOLUME_NORM →
      (phosh_channel_bar_set_is_amplified ui_max bar true).marks =
        [{ value := PA_VOLUME_NORM, markup := "<small>100%</small>" }]) ∧
    (bar.is_amplified = false → bar.base_volume < PA_VOLUME_NORM →
      (phosh_channel_bar_set_is_amplified ui_max bar true).marks =
        [{ value := bar.base_volume, markup := "<small>Unamplified</small>" },
         { value := PA_VOLUME_NORM, markup := "<small>100%</small>" }]) ∧
    (bar.is_amplified = false → PA_VOLUME_NORM < bar.base_volume →
      (phosh_channel_bar_set_is_amplified ui_max bar true).marks =
        [{ value := bar.base_volume, markup := "<small>Unamplified</small>" }]) ∧
    (bar.is_amplified = false →
      (phosh_channel_bar_set_is_amplified ui_max bar true).is_amplified = true ∧
      (phosh_channel_bar_set_is_amplified ui_max bar true).adjustment_upper = ui_max) ∧
    (bar.is_amplified = true →
      (phosh_channel_bar_set_is_amplified ui_max bar false).marks = [] ∧
      (phosh_channel_bar_set_is_amplified ui_max bar false).adjustment_upper = PA_VOLUME_NORM ∧
      (phosh_channel_bar_set_is_amplified ui_max bar false).is_amplified = false) := by
  refine ⟨?_, ?_, ?_, ?_, ?_⟩
  · intro ha hb
    simp [phosh_channel_bar_set_is_amplified, ha, amplified_marks, ADJUSTMENT_MAX_NORMAL, hb]
  · intro ha hb
    have hne : bar.base_volume ≠ PA_VOLUME_NORM := Nat.ne_of_lt hb
    simp [phosh_channel_bar_set_is_amplified, ha, amplified_marks, ADJUSTMENT_MAX_NORMAL, hb, hne]
  · intro ha hb
    have hne : bar.base_volume ≠ PA_VOLUME_NORM := Nat.ne_of_gt hb
    have hnl : ¬ bar.base_volume < PA_VOLUME_NORM := Nat.not_lt.mpr (Nat.le_of_lt hb)
    simp [phosh_channel_bar_set_is_amplified, ha, amplified_marks, ADJUSTMENT_MAX_NORMAL, hne, hnl]
  · intro ha
    simp [phosh_channel_bar_set_is_amplified, ha, ADJUSTMENT_MAX]
  · intro ha
    simp [phosh_channel_bar_set_is_amplified, ha, ADJUSTMENT_MAX, ADJUSTMENT_MAX_NORMAL]

/-- Witness for C21: the initial bar is switched to amplified at base volumes
65536, 32768 and 80000, and an amplified bar is switched back. -/
theorem set_is_amplified_marks_witness :
    (phosh_channel_bar_set_is_amplified 99957 phosh_channel_bar_init true).marks =
        [{ value := 65536, markup := "<small>100%</small>" }] ∧
      (phosh_channel_bar_set_is_amplified 99957
        (phosh_channel_bar_set_base_volume phosh_channel_bar_init 32768) true).marks =
        [{ value := 32768, markup := "<small>Unamplified</small>" },
         { value := 65536, markup := "<small>100%</small>" }] ∧
      (phosh_channel_bar_set_is_amplified 99957
        (phosh_channel_bar_set_base_volume phosh_channel_bar_init 80000) true).marks =
        [{ value := 80000, markup := "<small>Unamplified</small>" }] ∧
      (phosh_channel_bar_set_is_amplified 99957
        (phosh_channel_bar_set_is_amplified 99957 phosh_channel_bar_init true) false).marks =
        [] :=
  ⟨(set_is_amplified_marks 99957 phosh_channel_bar_init).1 rfl rfl,
   (set_is_amplified_marks 99957
     (phosh_channel_bar_set_base_volume phosh_channel_bar_init 32768)).2.1 rfl (by decide),
   (set_is_amplified_marks 99957
     (phosh_channel_bar_set_base_volume phosh_channel_bar_init 80000)).2.2.1 rfl (by decide),
   ((set_is_amplified_marks 99957
     (phosh_channel_bar_set_is_amplified 99957 phosh_channel_bar_init true)).2.2.2.2 rfl).1⟩

/-! ## The stored `has-activities` value (C27) -/

/-- Claim C27: after every call of `set_has_activities` the stored value is 1 when
the carousel has at least one page and 0 when it has none, hence never -1; a
second call with the same pages changes no state and notifies nothing. -/
theorem set_has_activities_value_and_idempotent (s : PhoshOverview) :
    (s.carousel_running_activities ≠ [] → (set_has_activities s).has_activities = 1) ∧
    (s.carousel_running_activities = [] → (set_has_activities s).has_activities = 0) ∧
    (set_has_activities s).has_activities ≠ -1 ∧
    set_has_activities (set_has_activities s) = set_has_activities s ∧
    (set_has_activities (set_has_activities s)).notifications =
      (set_has_activities s).notifications := by
  have hsync := set_has_activities_in_sync s
  unfold has_activities_in_sync at hsync
  rw [set_has_activities_carousel] at hsync
  have hidem : set_has_activities (set_has_activities s) = set_has_activities s := by
    generalize hs1 : set_has_activities s = s1 at hsync
    have hc : s1.carousel_running_activities = s.carousel_running_activities := by
      rw [← hs1]; exact set_has_activities_carousel s
    unfold set_has_activities
    dsimp only
    rw [hc, if_pos hsync]
  refine ⟨?_, ?_, ?_, hidem, by rw [hidem]⟩
  · intro hne
    rw [hsync]
    cases hc : s.carousel_running_activities with
    | nil => exact absurd hc hne
    | cons a l => simp
  · intro he
    rw [hsync, he]
    simp
  · rw [hsync]
    split_ifs <;> decide

/-- Witness for C27: the first call on the initial overview takes the stored
value from -1 to 0 and notifies once; a second call changes nothing. -/
theorem set_has_activities_value_and_idempotent_witness :
    phosh_overview_init.has_activities = -1 ∧
      (set_has_activities phosh_overview_init).has_activities = 0 ∧
      (set_has_activities phosh_overview_init).notifications = 1 ∧
      set_has_activities (set_has_activities phosh_overview_init) =
        set_has_activities phosh_overview_init :=
  ⟨rfl, (set_has_activities_value_and_idempotent phosh_overview_init).2.1 rfl, by decide,
   (set_has_activities_value_and_idempotent phosh_overview_init).2.2.2.1⟩

/-! ## Headphone detection (C28) -/

/-- Claim C28: `stream_uses_headphones` returns true exactly when the form factor
is `"headset"` or `"headphone"`, or the stream has a port whose name is
`"[Out] Headphones"` or `"analog-output-headphones"`; a stream with another or
no form factor and no port yields false. -/
theorem stream_uses_headphones_iff (stream : GvcMixerStream) :
    (stream_uses_headphones stream = true ↔
      (stream.form_factor = some "headset" ∨ stream.form_factor = some "headphone" ∨
        ∃ port, stream.port = some port ∧
          (port.port = some "[Out] Headphones" ∨
            port.port = some "analog-output-headphones"))) ∧
    (stream.form_factor ≠ some "headset" → stream.form_factor ≠ some "headphone" →
      stream.port = none → stream_uses_headphones stream = false) := by
  constructor
  · unfold stream_uses_headphones g_strcmp0_is_zero
    cases hp : stream.port with
    | none => simp
    | some port => simp [or_assoc]
  · intro h1 h2 h3
    simp [stream_uses_headphones, g_strcmp0_is_zero, h1, h2, h3]

/-- Witness for C28: a speaker without a port, a headset, and a stream whose port
is the analog headphone output. -/
theorem stream_uses_headphones_iff_witness :
    stream_uses_headphones { form_factor := some "speaker", port := none } = false ∧
      stream_uses_headphones { form_factor := none, port := none } = false ∧
      stream_uses_headphones { form_factor := some "headset", port := none } = true ∧
      stream_uses_headphones
        { form_factor := none, port := some { port := some "analog-output-headphones" } } =
          true :=
  ⟨(stream_uses_headphones_iff { form_factor := some "speaker", port := none }).2
      (by decide) (by decide) rfl,
   (stream_uses_headphones_iff { form_factor := none, port := none }).2
      (by decide) (by decide) rfl,
   (stream_uses_headphones_iff { form_factor := some "headset", port := none }).1.mpr
      (Or.inl rfl),
   (stream_uses_headphones_iff
      { form_factor := none, port := some { port := some "analog-output-headphones" } }).1.mpr
      (Or.inr (Or.inr ⟨_, rfl, Or.inr rfl⟩))⟩

/-! ## What a failed launch removes (C23) -/

/-- Children with equal pointers are the same child when pointers are distinct. -/
theorem eq_of_ptr_eq (l : List PhoshActivity) (hnd : (l.map (fun a => a.ptr)).Nodup)
    (x y : PhoshActivity) (hx : x ∈ l) (hy : y ∈ l) (h : x.ptr = y.ptr) : x = y :=
  List.inj_on_of_nodup_map hnd hx hy h

/-- The three outcomes of `on_app_failed`: nothing found, a child with a toplevel
found (both leave the state), or a child without a toplevel found, which is
destroyed. -/
theorem on_app_failed_cases (s : PhoshOverview) (i : GAppInfo) (t : Option String) :
    on_app_failed s i t = s ∨
    ∃ a, find_activity_by_app_info s i = some a ∧ a ∈ s.carousel_running_activities ∧
      a.toplevel = none ∧ on_app_failed s i t = gtk_widget_destroy s a.ptr := by
  unfold on_app_failed
  cases hf : find_activity_by_app_info s i with
  | none => left; simp [get_toplevel_from_activity]
  | some a =>
    cases ht : a.toplevel with
    | some h => left; simp [get_toplevel_from_activity, ht]
    | none =>
      right
      exact ⟨a, rfl, (find_activity_by_app_info_some s i a hf).1, ht,
        by simp [get_toplevel_from_activity, ht]⟩

/-- Claim C23: `on_app_failed` removes at most one entry and never one that has a
bound window: either the children are unchanged, or exactly one child without a
toplevel is taken out and the others stay as they are, in their order; so the
entries with a window are the same, with the same bindings and order.  When no
child matches the app info, the state is unchanged. -/
theorem on_app_failed_keeps_windows (s : PhoshOverview) (i : GAppInfo) (t : Option String)
    (hwf : ptrs_wf s) :
    ((on_app_failed s i t).carousel_running_activities = s.carousel_running_activities ∨
      ∃ pre a post, s.carousel_running_activities = pre ++ a :: post ∧ a.toplevel = none ∧
        a.app_info = some i ∧
        (on_app_failed s i t).carousel_running_activities = pre ++ post) ∧
    window_entries (on_app_failed s i t) = window_entries s ∧
    s.carousel_running_activities.length ≤
      (on_app_failed s i t).carousel_running_activities.length + 1 ∧
    ((∀ x ∈ s.carousel_running_activities, x.app_info ≠ some i) → on_app_failed s i t = s) := by
  have hshape : (on_app_failed s i t).carousel_running_activities =
        s.carousel_running_activities ∨
      ∃ pre a post, s.carousel_running_activities = pre ++ a :: post ∧ a.toplevel = none ∧
        a.app_info = some i ∧
        (on_app_failed s i t).carousel_running_activities = pre ++ post := by
    rcases on_app_failed_cases s i t with h | ⟨a, hf, hmem, ht, h⟩
    · left; rw [h]
    · right
      obtain ⟨pre, post, hsplit⟩ := List.append_of_mem hmem
      refine ⟨pre, a, post, hsplit, ht, (find_activity_by_app_info_some s i a hf).2, ?_⟩
      rw [h, gtk_widget_destroy_carousel, hsplit]
      exact filter_ptr_split pre post a (by rw [← hsplit]; exact hwf.1)
  refine ⟨hshape, ?_, ?_, ?_⟩
  · unfold window_entries
    rcases hshape with h | ⟨pre, a, post, hsplit, ht, _, h⟩
    · rw [h]
    · rw [h, hsplit]
      simp [List.filter_append, List.filter_cons, ht]
  · rcases hshape with h | ⟨pre, a, post, hsplit, _, _, h⟩
    · rw [h]; omega
    · rw [h, hsplit]
      simp only [List.length_append, List.length_cons]
      omega
  · intro hnone
    rcases on_app_failed_cases s i t with h | ⟨a, hf, _, _, _⟩
    · exact h
    · rw [find_activity_by_app_info_none s i hnone] at hf
      exact absurd hf (by simp)

/-- Witness for C23: with app a running in window 5 and a second launch of a
pending, the failure finds the window's entry first and removes nothing. -/
theorem on_app_failed_keeps_windows_witness :
    window_entries (on_app_failed ex_running_and_splash_a ex_info_a (some "t1")) =
        window_entries ex_running_and_splash_a ∧
      (on_app_failed ex_splash_a ex_info_a (some "t0")).carousel_running_activities = [] :=
  ⟨(on_app_failed_keeps_windows ex_running_and_splash_a ex_info_a (some "t1")
    (by decide)).2.1, by decide⟩

/-! ## Splashes are kept when the app already has a window (C24) -/

/-- Putting in a child that fails the test does not change what passes it. -/
theorem filter_insert_at_of_false (l : List PhoshActivity) (n : PhoshActivity) (k : Nat)
    (q : PhoshActivity → Bool) (hq : q n = false) :
    (insert_at l n k).filter q = l.filter q := by
  unfold insert_at
  have hl : l.filter q = (l.take k).filter q ++ (l.drop k).filter q := by
    rw [← List.filter_append, List.take_append_drop]
  rw [List.filter_append, List.filter_cons, hq, hl]
  simp

/-- Claim C25: `toplevel_to_activity` changes the children in exactly one of two
ways.  Either one child without a toplevel is upgraded in place, bound to the
window, and the length and the order stay; or exactly one new child, bound to
the window, is put in.  In both cases every other child is the same record, so
it keeps its binding and its startup id, and the others keep their order; the
count never decreases. -/
theorem toplevel_to_activity_two_effects (shell : PhoshShell) (s : PhoshOverview)
    (w : PhoshToplevel) (hwf : ptrs_wf s) :
    ((∃ pre a post, s.carousel_running_activities = pre ++ a :: post ∧ a.toplevel = none ∧
        (toplevel_to_activity shell s w).carousel_running_activities =
          pre ++ upgrade_activity shell w a :: post ∧
        (upgrade_activity shell w a).ptr = a.ptr ∧
        (upgrade_activity shell w a).toplevel = some w.handle ∧
        (toplevel_to_activity shell s w).carousel_running_activities.length =
          s.carousel_running_activities.length) ∨
     (∃ k, (toplevel_to_activity shell s w).carousel_running_activities =
        insert_at s.carousel_running_activities
          (set_toplevel w.handle (phosh_activity_new shell s none (some w) w.app_id
            (resolve_parent_app_id shell w))) k ∧
        (∀ x ∈ s.carousel_running_activities, x.ptr ≠ s.next_ptr) ∧
        List.Sublist s.carousel_running_activities
          (toplevel_to_activity shell s w).carousel_running_activities ∧
        (toplevel_to_activity shell s w).carousel_running_activities.length =
          s.carousel_running_activities.length + 1)) ∧
    s.carousel_running_activities.length ≤
      (toplevel_to_activity shell s w).carousel_running_activities.length := by
  have hmain : (∃ pre a post, s.carousel_running_activities = pre ++ a :: post ∧
        a.toplevel = none ∧
        (toplevel_to_activity shell s w).carousel_running_activities =
          pre ++ upgrade_activity shell w a :: post ∧
        (upgrade_activity shell w a).ptr = a.ptr ∧
        (upgrade_activity shell w a).toplevel = some w.handle ∧
        (toplevel_to_activity shell s w).carousel_running_activities.length =
          s.carousel_running_activities.length) ∨
     (∃ k, (toplevel_to_activity shell s w).carousel_running_activities =
        insert_at s.carousel_running_activities
          (set_toplevel w.handle (phosh_activity_new shell s none (some w) w.app_id
            (resolve_parent_app_id shell w))) k ∧
        (∀ x ∈ s.carousel_running_activities, x.ptr ≠ s.next_ptr) ∧
        List.Sublist s.carousel_running_activities
          (toplevel_to_activity shell s w).carousel_running_activities ∧
        (toplevel_to_activity shell s w).carousel_running_activities.length =
          s.carousel_running_activities.length + 1) := by
    cases hr : reusable_activity shell s w with
    | some a =>
      left
      obtain ⟨pre, post, hsplit, hc⟩ := toplevel_to_activity_reuse_wf shell s w a hwf hr
      obtain ⟨_, hnone, _⟩ := reusable_activity_some shell s w a hr
      exact ⟨pre, a, post, hsplit, hnone, hc, rfl, rfl, by rw [hc, hsplit]; simp⟩
    | none =>
      right
      obtain ⟨k, hk⟩ := toplevel_to_activity_create_wf shell s w hwf hr
      refine ⟨k, hk, fun x hx => Nat.ne_of_lt (hwf.2 x hx), ?_, ?_⟩
      · rw [hk]; exact sublist_insert_at _ _ _
      · rw [hk]
        unfold insert_at
        have hlen := congrArg List.length (List.take_append_drop k s.carousel_running_activities)
        simp only [List.length_append, List.length_cons] at hlen ⊢
        omega
  refine ⟨hmain, ?_⟩
  rcases hmain with ⟨_, _, _, _, _, _, _, _, hlen⟩ | ⟨_, _, _, _, hlen⟩
  · rw [hlen]
  · rw [hlen]; omega

/-- Witness for C25: a window of app a upgrades the pending splash of a in place;
a second window of a is put in as a new entry. -/
theorem toplevel_to_activity_two_effects_witness :
    (toplevel_to_activity ex_shell ex_splash_a (ex_window_of 5 "a")
      ).carousel_running_activities.length = ex_splash_a.carousel_running_activities.length ∧
    ex_running_a.carousel_running_activities.length ≤
      (toplevel_to_activity ex_shell ex_running_a (ex_window_of 6 "a")
        ).carousel_running_activities.length :=
  ⟨by
    rcases (toplevel_to_activity_two_effects ex_shell ex_splash_a (ex_window_of 5 "a")
      (by decide)).1 with ⟨_, _, _, _, _, _, _, _, hlen⟩ | ⟨_, _, _, _, hlen⟩
    · exact hlen
    · exact absurd hlen (by decide),
   (toplevel_to_activity_two_effects ex_shell ex_running_a (ex_window_of 6 "a")
    (by decide)).2⟩

/-! ## Activation of a window without an entry (C26) -/

/-- Claim C26: when a window that no entry is bound to reports itself activated,
`on_toplevel_activated_changed` sets the focused-entry reference to null,
whatever it was, and does nothing else: the scroll target, the focus and the
children are unchanged. -/
theorem on_toplevel_activated_changed_unknown_window (s : PhoshOverview) (w : PhoshToplevel)
    (hact : w.activated = true)
    (hnone : ∀ x ∈ s.carousel_running_activities, x.toplevel ≠ some w.handle) :
    on_toplevel_activated_changed s w = { s with activity := none } ∧
    (on_toplevel_activated_changed s w).activity = none ∧
    (on_toplevel_activated_changed s w).scroll_target = s.scroll_target ∧
    (on_toplevel_activated_changed s w).focus = s.focus ∧
    (on_toplevel_activated_changed s w).carousel_running_activities =
      s.carousel_running_activities := by
  have hfind := find_activity_by_toplevel_none s w.handle hnone
  have h : on_toplevel_activated_changed s w = { s with activity := none } := by
    unfold on_toplevel_activated_changed
    rw [hfind]
    simp [hact]
  rw [h]
  exact ⟨rfl, rfl, rfl, rfl, rfl⟩

/-- Witness for C26: window 99, unknown to the overview, is activated while the
entry with pointer 1 is focused. -/
theorem on_toplevel_activated_changed_unknown_window_witness :
    (on_toplevel_activated_changed { ex_xya with activity := some 1 }
        { ex_window_of 99 "y" with activated := true }).activity = none ∧
      (on_toplevel_activated_changed { ex_xya with activity := some 1 }
        { ex_window_of 99 "y" with activated := true }).carousel_running_activities =
        ex_xya.carousel_running_activities :=
  ⟨(on_toplevel_activated_changed_unknown_window { ex_xya with activity := some 1 }
      { ex_window_of 99 "y" with activated := true } rfl (by decide)).2.1,
   (on_toplevel_activated_changed_unknown_window { ex_xya with activity := some 1 }
      { ex_window_of 99 "y" with activated := true } rfl (by decide)).2.2.2.2⟩

/-! ## The focused entry is a live window entry (C22) -/

/-- What the lookup by toplevel finds is a child bound to the toplevel. -/
theorem find_activity_by_toplevel_some (s : PhoshOverview) (h : Nat) (a : PhoshActivity)
    (hf : find_activity_by_toplevel s h = some a) :
    a ∈ s.carousel_running_activities ∧ a.toplevel = some h := by
  unfold find_activity_by_toplevel at hf
  refine ⟨List.mem_of_find?_eq_some hf, ?_⟩
  have hp := List.find?_some hf
  cases ht : a.toplevel with
  | none => simp [toplevel_matches, get_toplevel_from_activity, ht] at hp
  | some t =>
    simp only [toplevel_matches, get_toplevel_from_activity, ht, decide_eq_true_eq] at hp
    exact hp

theorem on_app_failed_activity (s : PhoshOverview) (i : GAppInfo) (t : Option String) :
    (on_app_failed s i t).activity = s.activity := by
  rcases on_app_failed_cases s i t with h | ⟨a, _, _, _, h⟩
  · rw [h]
  · rw [h, gtk_widget_destroy_activity]

/-- A launch keeps the focused entry valid. -/
theorem on_app_launch_started_focus_valid (shell : PhoshShell) (s : PhoshOverview)
    (info : GAppInfo) (t : Option String) (hwf : ptrs_wf s) (hv : focus_valid s) :
    focus_valid (on_app_launch_started shell s info t) := by
  intro p hp
  rw [on_app_launch_started_activity] at hp
  obtain ⟨e, he, hptr, htop⟩ := hv p hp
  refine ⟨e, ?_, hptr, htop⟩
  rw [on_app_launch_started_carousel_wf shell s info t hwf]
  exact List.mem_append_left _ he

/-- A failed launch keeps the focused entry valid: what it destroys has no
toplevel. -/
theorem on_app_failed_focus_valid (s : PhoshOverview) (i : GAppInfo) (t : Option String)
    (hwf : ptrs_wf s) (hv : focus_valid s) : focus_valid (on_app_failed s i t) := by
  intro p hp
  rw [on_app_failed_activity] at hp
  obtain ⟨e, he, hptr, htop⟩ := hv p hp
  rcases on_app_failed_cases s i t with h | ⟨a, _, hmem, ht, h⟩
  · rw [h]; exact ⟨e, he, hptr, htop⟩
  · refine ⟨e, ?_, hptr, htop⟩
    rw [h, gtk_widget_destroy_carousel]
    apply List.mem_filter.mpr
    refine ⟨he, ?_⟩
    have hne : e.ptr ≠ a.ptr := by
      intro heq
      have := eq_of_ptr_eq _ hwf.1 e a he hmem heq
      rw [this] at htop
      exact htop ht
    simpa using hne

/-- Binding a window keeps the focused entry valid. -/
theorem toplevel_to_activity_focus_valid (shell : PhoshShell) (s : PhoshOverview)
    (w : PhoshToplevel) (hwf : ptrs_wf s) (hv : focus_valid s) :
    focus_valid (toplevel_to_activity shell s w) := by
  obtain ⟨hact, hnot⟩ := toplevel_to_activity_focus_fields shell s w
  intro p hp
  cases ha : w.activated with
  | true =>
    rw [(hact ha).1] at hp
    obtain ⟨e, he, hptr, htop⟩ := toplevel_to_activity_ptr_bound shell s w
    have hpe : toplevel_to_activity_ptr shell s w = p := Option.some.inj hp
    exact ⟨e, he, by rw [hptr, hpe], by rw [htop]; simp⟩
  | false =>
    rw [(hnot ha).1] at hp
    obtain ⟨e, he, hptr, htop⟩ := hv p hp
    cases hr : reusable_activity shell s w with
    | some a =>
      obtain ⟨pre, post, hsplit, hc⟩ := toplevel_to_activity_reuse_wf shell s w a hwf hr
      obtain ⟨_, hnone, _⟩ := reusable_activity_some shell s w a hr
      refine ⟨e, ?_, hptr, htop⟩
      rw [hc]
      rw [hsplit] at he
      rcases List.mem_append.mp he with he | he
      · exact List.mem_append_left _ he
      · rcases List.mem_cons.mp he with he | he
        · rw [he] at htop; exact absurd hnone htop
        · exact List.mem_append_right _ (List.mem_cons_of_mem _ he)
    | none =>
      obtain ⟨k, hk⟩ := toplevel_to_activity_create_wf shell s w hwf hr
      refine ⟨e, ?_, hptr, htop⟩
      rw [hk]
      exact (mem_insert_at _ _ _ _).mpr (Or.inr he)

/-- Closing a window keeps the focused entry valid: the reference is cleared when
it pointed at the destroyed entry. -/
theorem on_toplevel_closed_focus_valid (s : PhoshOverview) (w : PhoshToplevel)
    (hv : focus_valid s) : focus_valid (on_toplevel_closed s w) := by
  unfold on_toplevel_closed
  cases hf : find_activity_by_toplevel s w.handle with
  | none => exact hv
  | some a =>
    dsimp only
    rw [gtk_widget_destroy_activity]
    by_cases hfocus : s.activity = some a.ptr
    · rw [if_pos hfocus]
      intro p hp
      exact absurd hp (by simp)
    · rw [if_neg hfocus]
      intro p hp
      rw [gtk_widget_destroy_activity] at hp
      obtain ⟨e, he, hptr, htop⟩ := hv p hp
      refine ⟨e, ?_, hptr, htop⟩
      rw [gtk_widget_destroy_carousel]
      apply List.mem_filter.mpr
      refine ⟨he, ?_⟩
      have hne : e.ptr ≠ a.ptr := by
        intro heq
        apply hfocus
        rw [hp, ← heq, hptr]
      simpa using hne

/-- A change of activation keeps the focused entry valid: it is the entry found for
the window, or null. -/
theorem on_toplevel_activated_changed_focus_valid (s : PhoshOverview) (w : PhoshToplevel)
    (hv : focus_valid s) : focus_valid (on_toplevel_activated_changed s w) := by
  unfold on_toplevel_activated_changed
  split_ifs
  · cases hf : find_activity_by_toplevel s w.handle with
    | none =>
      intro p hp
      exact absurd hp (by simp)
    | some a =>
      obtain ⟨hmem, htop⟩ := find_activity_by_toplevel_some s w.handle a hf
      intro p hp
      have hpa : a.ptr = p := Option.some.inj hp
      exact ⟨a, hmem, hpa, by rw [htop]; simp⟩
  · exact hv

/-- Every handler keeps the focused entry valid. -/
theorem dispatch_focus_valid (s : PhoshOverview) (ev : Event) (hwf : ptrs_wf s)
    (hv : focus_valid s) : focus_valid (dispatch s ev) := by
  cases ev with
  | app_launch_started shell info t => exact on_app_launch_started_focus_valid shell s info t hwf hv
  | app_ready info t => exact hv
  | app_failed info t => exact on_app_failed_focus_valid s info t hwf hv
  | toplevel_added shell w => exact toplevel_to_activity_focus_valid shell s w hwf hv
  | toplevel_closed w => exact on_toplevel_closed_focus_valid s w hv
  | toplevel_activated_changed w => exact on_toplevel_activated_changed_focus_valid s w hv

/-- The focused entry stays valid along every run. -/
theorem run_focus_valid (events : List Event) (s : PhoshOverview) (hwf : ptrs_wf s)
    (hv : focus_valid s) : focus_valid (run s events) := by
  induction events generalizing s with
  | nil => exact hv
  | cons ev rest ih =>
    exact ih (dispatch s ev) (dispatch_wf s ev hwf) (dispatch_focus_valid s ev hwf hv)

/-- Claim C22: in every state reached from an empty collection with a null
focused-entry reference through the handlers (launch started, ready and failed,
toplevel added and closed, activation changes), the focused-entry reference is
null or points at an entry that is in the collection and has a bound window; so
it never refers to a destroyed entry. -/
theorem reachable_focus_valid (s : PhoshOverview)
    (hempty : s.carousel_running_activities = []) (hnull : s.activity = none)
    (events : List Event) :
    (run s events).activity = none ∨
    ∃ e ∈ (run s events).carousel_running_activities,
      (run s events).activity = some e.ptr ∧ e.toplevel ≠ none := by
  have hwf : ptrs_wf s := by
    unfold ptrs_wf
    rw [hempty]
    exact ⟨List.nodup_nil, fun a ha => absurd ha (List.not_mem_nil a)⟩
  have hv : focus_valid s := by
    intro p hp
    rw [hnull] at hp
    exact absurd hp (by simp)
  have hrun := run_focus_valid events s hwf hv
  cases hact : (run s events).activity with
  | none => left; rfl
  | some p =>
    right
    obtain ⟨e, he, hptr, htop⟩ := hrun p hact
    exact ⟨e, he, by rw [hptr], htop⟩

/-- Witness for C22: an activated window of app a arrives, a launch of a fails, the
window is closed; the reference goes from the window's entry back to null. -/
theorem reachable_focus_valid_witness :
    (run phosh_overview_init
      [Event.toplevel_added ex_shell { ex_window_of 5 "a" with activated := true },
       Event.app_launch_started ex_shell ex_info_a (some "t1"),
       Event.app_failed ex_info_a (some "t1")]).activity = some 0 ∧
    (run phosh_overview_init
      [Event.toplevel_added ex_shell { ex_window_of 5 "a" with activated := true },
       Event.app_launch_started ex_shell ex_info_a (some "t1"),
       Event.app_failed ex_info_a (some "t1"),
       Event.toplevel_closed (ex_window_of 5 "a")]).activity = none ∧
    ((run phosh_overview_init
      [Event.toplevel_added ex_shell { ex_window_of 5 "a" with activated := true },
       Event.app_launch_started ex_shell ex_info_a (some "t1")]).activity = none ∨
     ∃ e ∈ (run phosh_overview_init
        [Event.toplevel_added ex_shell { ex_window_of 5 "a" with activated := true },
         Event.app_launch_started ex_shell ex_info_a (some "t1")]).carousel_running_activities,
        (run phosh_overview_init
          [Event.toplevel_added ex_shell { ex_window_of 5 "a" with activated := true },
           Event.app_launch_started ex_shell ex_info_a (some "t1")]).activity = some e.ptr ∧
        e.toplevel ≠ none) :=
  ⟨by decide, by decide, reachable_focus_valid phosh_overview_init rfl rfl _⟩

end Phosh
